import Mathlib

set_option linter.unusedVariables false

/-! Shallow embedding of the frame-processing loops of the
`webcam_yolo_vigia` repository: `src/headless.py`
(`HeadlessMotionDetector.run`), `src/GUI_webcam.py` (`WebcamApp.update`)
and `src/tts_player.py` (`play_gtts_text`).

Timestamps are rationals (seconds).  Per-frame external facts — the
labels/boxes the YOLO model would return on this frame (or a raised
exception), and whether the background subtractor would report a
significant-motion contour — are oracle fields of `FrameInput`; the
embedded step functions reproduce exactly the control flow the Python
loops apply to those facts. -/

/-- The label string `"person"`. -/
def personLabel : String := "person"

/-- The label string `"cat"`. -/
def catLabel : String := "cat"

/-- The label string `"dog"`. -/
def dogLabel : String := "dog"

/-- `allowed_labels = {"person", "cat", "dog"}` (both loops, line 25/27). -/
def allowed_labels : List String := [personLabel, catLabel, dogLabel]

/-- One YOLO detection entry as stored in `persistent_detections`:
`{'label': ..., 'confidence': ..., 'bbox': (x_min, y_min, x_max, y_max)}`. -/
structure Detection where
  label : String
  confidence : ℚ
  bbox : ℤ × ℤ × ℤ × ℤ
deriving Repr, DecidableEq, Inhabited

/-- The per-invocation filtering of raw detector output: only entries whose
label is in `allowed_labels` are appended to `persistent_detections`,
in result order. -/
def filterAllowed (raws : List Detection) : List Detection :=
  raws.filter (fun d => allowed_labels.contains d.label)

/-- `original_audio = "detection_sound_original.mp3"` (tts_player.py line 25):
the same constant on every invocation. -/
def original_audio : String := "detection_sound_original.mp3"

/-- `adjusted_audio = "detection_sound_adjusted.mp3"` (tts_player.py line 30):
the same constant on every invocation. -/
def adjusted_audio : String := "detection_sound_adjusted.mp3"

/-- Result of one `play_gtts_text` invocation: whether audio was produced,
the new value of the module-global `last_audio_time`, and the temporary
audio files the invocation writes (empty when the cooldown early-return
fires before any file is written). -/
structure GttsResult where
  played : Bool
  last_audio_time : ℚ
  tempFiles : List String
deriving Repr, DecidableEq, Inhabited

/-- `play_gtts_text(text, cooldown, speed)` from `src/tts_player.py`.
The module global `last_audio_time` is passed and returned explicitly.
If `current_time - last_audio_time < cooldown` the call returns at once
with no state change; otherwise it writes the two fixed temporary files,
dispatches playback, and sets `last_audio_time = current_time`. -/
def play_gtts_text (text : String) (cooldown : ℚ) (speed : ℚ)
    (last_audio_time : ℚ) (now : ℚ) : GttsResult :=
  if now - last_audio_time < cooldown then
    ⟨false, last_audio_time, []⟩
  else
    ⟨true, now, [original_audio, adjusted_audio]⟩

/-- Outcome of the per-frame alert-dispatch loop
(`for detection in self.persistent_detections: ...`): which category was
dispatched (a `play_gtts_text` call made), which actually played audio,
the resulting `last_audio_time`, and whether the motion gate is to be
disabled (person branch only). -/
structure DispatchResult where
  dispatchedPerson : Bool
  dispatchedAnimal : Bool
  playedPerson : Bool
  playedAnimal : Bool
  last_audio_time : ℚ
  disable : Bool
deriving Repr, DecidableEq, Inhabited

/-- Dispatch outcome when the loop matches nothing. -/
def noDispatch (l : ℚ) : DispatchResult := ⟨false, false, false, false, l, false⟩

/-- Text of the headless person alert (without the formatted time suffix,
which does not influence control flow). -/
def textPersonH : String := "Pessoa detectada"

/-- Text of the headless animal alert. -/
def textAnimalH : String := "Animal detectado"

/-- Text of the headless motion alert. -/
def textMotionH : String := "Movimento detectado!"

/-- Text of the GUI motion alert. -/
def textMotionG : String := "Movimento detectado"

/-- The dispatch loop of `headless.py` lines 132-140: first matching entry
wins and `break`s — `person` fires the person alert (cooldown 3) and
disables the motion gate; `cat`/`dog` fires the animal alert (cooldown 3)
without touching the gate. -/
def headlessDispatch (dets : List Detection) (lastAudio now : ℚ) : DispatchResult :=
  match dets with
  | [] => noDispatch lastAudio
  | d :: rest =>
    if d.label = personLabel then
      let r := play_gtts_text textPersonH 3 1.71 lastAudio now
      ⟨true, false, r.played, false, r.last_audio_time, true⟩
    else if d.label = catLabel ∨ d.label = dogLabel then
      let r := play_gtts_text textAnimalH 3 1.71 lastAudio now
      ⟨false, true, false, r.played, r.last_audio_time, false⟩
    else headlessDispatch rest lastAudio now

/-- The dispatch loop of `GUI_webcam.py` lines 148-157: the animal branch is
commented out, so only a `person` entry matches (cooldown 5) and disables
the gate; every other entry is skipped. -/
def guiDispatch (dets : List Detection) (lastAudio now : ℚ) : DispatchResult :=
  match dets with
  | [] => noDispatch lastAudio
  | d :: rest =>
    if d.label = personLabel then
      let r := play_gtts_text textPersonH 5 1.71 lastAudio now
      ⟨true, false, r.played, false, r.last_audio_time, true⟩
    else guiDispatch rest lastAudio now

/-- Mutable state of one detector object (fields of `HeadlessMotionDetector`
or `WebcamApp`, plus the `tts_player` module global `last_audio_time`).
`lastSavedMotion`/`lastSavedPerson` are the two entries of the
`last_saved_times` dict. -/
structure State where
  frame_skip : ℕ
  frame_count : ℕ
  lastSavedMotion : ℚ
  lastSavedPerson : ℚ
  motion_enabled : Bool
  motion_disabled_until : ℚ
  persistent_detections : List Detection
  last_audio_time : ℚ
deriving Repr, DecidableEq, Inhabited

/-- State after `__init__` with a given skip factor: counters and throttle
timestamps zero, gate enabled, cache empty (`last_audio_time = 0` is the
module-global initial value from tts_player.py line 8). -/
def initState (n : ℕ) : State :=
  ⟨n, 0, 0, 0, true, 0, [], 0⟩

/-- External facts of one loop iteration: the wall-clock time read at the
top of the iteration, the outcome the YOLO model would give on this frame
(`Except.error` models a raised exception), whether the background
subtractor would find a contour of area > 500, and an identifier of the
raw frame. -/
structure FrameInput where
  now : ℚ
  detector : Except Unit (List Detection)
  significantMotion : Bool
  frameId : ℕ
deriving Inhabited

/-- Observable side effects of one loop iteration.  Saved frames are
recorded as `(frameId, boxes drawn on the image at save time)`, so
`[]` boxes means the raw frame was persisted.  `dispatchedX` means the
corresponding `play_gtts_text` call was made; `playedX` means it got
past the audio cooldown.  `motionChecked` records whether the motion
sensing branch ran at all. -/
structure FrameEffects where
  detectorInvoked : Bool
  dispatchedPerson : Bool
  dispatchedAnimal : Bool
  dispatchedMotion : Bool
  playedPerson : Bool
  playedAnimal : Bool
  playedMotion : Bool
  savedPersonFrames : List (ℕ × List Detection)
  savedMotionFrames : List (ℕ × List Detection)
  motionChecked : Bool
deriving Repr, DecidableEq, Inhabited

/-- Result of one loop iteration: `ok` with the new state and effects, or
`fatal` when an uncaught exception propagates out of the loop body,
carrying the object state at that moment (the loop stops: `headless.py`
catches only `KeyboardInterrupt`; in the GUI the `window.after`
re-scheduling at the end of `update` is never reached). -/
inductive StepResult where
  | ok (s : State) (e : FrameEffects)
  | fatal (s : State)
deriving Repr, DecidableEq, Inhabited

/-- State carried by a step result. -/
def resultState : StepResult → State
  | StepResult.ok s _ => s
  | StepResult.fatal s => s

/-- Effects of a step result (`default` for a fatal step, which produced
no effects record). -/
def resultEffects : StepResult → FrameEffects
  | StepResult.ok _ e => e
  | StepResult.fatal _ => default

/-- Whether the step ended with an uncaught exception. -/
def isFatal : StepResult → Bool
  | StepResult.ok _ _ => false
  | StepResult.fatal _ => true

/-- State produced by steps 3-5 of the headless loop body (after the
detector/dispatch block): boxes of `dets` are drawn on the frame, the
person/pet save throttle (0.2 s) runs, then — only if the gate is
enabled — motion sensing; the motion save throttle (0.2 s) gates both
the motion save and the nested motion alert (cooldown 10); while the
gate is disabled the re-enable check `current_time >= motion_disabled_until`
runs instead.  Finally `frame_count` is incremented. -/
def headlessTailState (s : State) (i : FrameInput) (dets : List Detection)
    (dr : DispatchResult) : State :=
  let now := i.now
  let enabled1 : Bool := if dr.disable then false else s.motion_enabled
  let until1 : ℚ := if dr.disable then now + 20 else s.motion_disabled_until
  let pSave : Bool := (!dets.isEmpty) && decide ((0.2 : ℚ) ≤ now - s.lastSavedPerson)
  let lastSavedPerson' : ℚ := if pSave then now else s.lastSavedPerson
  let mFire : Bool := enabled1 && i.significantMotion &&
    decide ((0.2 : ℚ) ≤ now - s.lastSavedMotion)
  let r := play_gtts_text textMotionH 10 2.22 dr.last_audio_time now
  let lastSavedMotion' : ℚ := if mFire then now else s.lastSavedMotion
  let lastAudio2 : ℚ := if mFire then r.last_audio_time else dr.last_audio_time
  let enabled2 : Bool := if enabled1 then true
    else if until1 ≤ now then true else false
  { frame_skip := s.frame_skip
    frame_count := s.frame_count + 1
    lastSavedMotion := lastSavedMotion'
    lastSavedPerson := lastSavedPerson'
    motion_enabled := enabled2
    motion_disabled_until := until1
    persistent_detections := dets
    last_audio_time := lastAudio2 }

/-- Effects record matching `headlessTailState`. -/
def headlessTailEffects (s : State) (i : FrameInput) (dets : List Detection)
    (dr : DispatchResult) (detInvoked : Bool) : FrameEffects :=
  let now := i.now
  let enabled1 : Bool := if dr.disable then false else s.motion_enabled
  let pSave : Bool := (!dets.isEmpty) && decide ((0.2 : ℚ) ≤ now - s.lastSavedPerson)
  let mFire : Bool := enabled1 && i.significantMotion &&
    decide ((0.2 : ℚ) ≤ now - s.lastSavedMotion)
  let r := play_gtts_text textMotionH 10 2.22 dr.last_audio_time now
  { detectorInvoked := detInvoked
    dispatchedPerson := dr.dispatchedPerson
    dispatchedAnimal := dr.dispatchedAnimal
    dispatchedMotion := mFire
    playedPerson := dr.playedPerson
    playedAnimal := dr.playedAnimal
    playedMotion := mFire && r.played
    savedPersonFrames := if pSave then [(i.frameId, dets)] else []
    savedMotionFrames := if mFire then [(i.frameId, dets)] else []
    motionChecked := enabled1 }

/-- One iteration of the headless loop body (`headless.py` lines 93-198).
On a detector frame (`frame_count % frame_skip == 0`) the model runs:
an exception is fatal (no handler — `persistent_detections` is cleared
only after a successful call); otherwise the cache is replaced wholesale
by the filtered batch and the alert-dispatch loop runs.  Steps 3-5 are
`headlessTailState`/`headlessTailEffects`. -/
def headlessStep (s : State) (i : FrameInput) : StepResult :=
  if s.frame_count % s.frame_skip = 0 then
    match i.detector with
    | Except.error _ => StepResult.fatal s
    | Except.ok raws =>
      let dets := filterAllowed raws
      let dr := headlessDispatch dets s.last_audio_time i.now
      StepResult.ok (headlessTailState s i dets dr)
        (headlessTailEffects s i dets dr true)
  else
    StepResult.ok
      (headlessTailState s i s.persistent_detections (noDispatch s.last_audio_time))
      (headlessTailEffects s i s.persistent_detections (noDispatch s.last_audio_time) false)

/-- The person-save block of `GUI_webcam.py` lines 207-209, which sits
inside the box-drawing `for` loop (lines 189-209): after drawing each
detection's box, if the 0.2 s person-save throttle allows, the frame —
carrying only the boxes drawn so far — is saved and the throttle updated.
Returns the accumulated saves and the final `last_saved_times["person"]`. -/
def guiDrawSaveLoop (frameId : ℕ) (now : ℚ) (drawn : List Detection)
    (pending : List Detection) (lastP : ℚ) (acc : List (ℕ × List Detection)) :
    List (ℕ × List Detection) × ℚ :=
  match pending with
  | [] => (acc, lastP)
  | d :: rest =>
    let drawn' := drawn ++ [d]
    if (0.2 : ℚ) ≤ now - lastP then
      guiDrawSaveLoop frameId now drawn' rest now (acc ++ [(frameId, drawn')])
    else
      guiDrawSaveLoop frameId now drawn' rest lastP acc

/-- State produced by steps 4-5 of the GUI loop body: motion sensing runs
before box drawing; on significant motion the raw frame is saved
unconditionally (`GUI_webcam.py` line 173 has no throttle check, though
`last_saved_times["motion"]` is still updated) and the motion alert
(cooldown 10) dispatched; then boxes are drawn with the nested
person-save loop. -/
def guiTailState (s : State) (i : FrameInput) (dets : List Detection)
    (dr : DispatchResult) : State :=
  let now := i.now
  let enabled1 : Bool := if dr.disable then false else s.motion_enabled
  let until1 : ℚ := if dr.disable then now + 20 else s.motion_disabled_until
  let mFire : Bool := enabled1 && i.significantMotion
  let r := play_gtts_text textMotionG 10 1.61 dr.last_audio_time now
  let lastSavedMotion' : ℚ := if mFire then now else s.lastSavedMotion
  let lastAudio2 : ℚ := if mFire then r.last_audio_time else dr.last_audio_time
  let enabled2 : Bool := if enabled1 then true
    else if until1 ≤ now then true else false
  let ps := guiDrawSaveLoop i.frameId now [] dets s.lastSavedPerson []
  { frame_skip := s.frame_skip
    frame_count := s.frame_count + 1
    lastSavedMotion := lastSavedMotion'
    lastSavedPerson := ps.2
    motion_enabled := enabled2
    motion_disabled_until := until1
    persistent_detections := dets
    last_audio_time := lastAudio2 }

/-- Effects record matching `guiTailState`.  The saved motion frame carries
no boxes (`[]`): in the GUI the motion save happens before drawing. -/
def guiTailEffects (s : State) (i : FrameInput) (dets : List Detection)
    (dr : DispatchResult) (detInvoked : Bool) : FrameEffects :=
  let now := i.now
  let enabled1 : Bool := if dr.disable then false else s.motion_enabled
  let mFire : Bool := enabled1 && i.significantMotion
  let r := play_gtts_text textMotionG 10 1.61 dr.last_audio_time now
  let ps := guiDrawSaveLoop i.frameId now [] dets s.lastSavedPerson []
  { detectorInvoked := detInvoked
    dispatchedPerson := dr.dispatchedPerson
    dispatchedAnimal := dr.dispatchedAnimal
    dispatchedMotion := mFire
    playedPerson := dr.playedPerson
    playedAnimal := dr.playedAnimal
    playedMotion := mFire && r.played
    savedPersonFrames := ps.1
    savedMotionFrames := if mFire then [(i.frameId, [])] else []
    motionChecked := enabled1 }

/-- One iteration of the GUI loop body (`GUI_webcam.py` lines 105-223),
same detector-cadence and fatality structure as `headlessStep`. -/
def guiStep (s : State) (i : FrameInput) : StepResult :=
  if s.frame_count % s.frame_skip = 0 then
    match i.detector with
    | Except.error _ => StepResult.fatal s
    | Except.ok raws =>
      let dets := filterAllowed raws
      let dr := guiDispatch dets s.last_audio_time i.now
      StepResult.ok (guiTailState s i dets dr)
        (guiTailEffects s i dets dr true)
  else
    StepResult.ok
      (guiTailState s i s.persistent_detections (noDispatch s.last_audio_time))
      (guiTailEffects s i s.persistent_detections (noDispatch s.last_audio_time) false)

/-- Run a loop over a list of frame inputs, collecting the effects of each
iteration; the Bool is false when the run ended in an uncaught exception
(remaining frames unprocessed). -/
def runTrace (step : State → FrameInput → StepResult) :
    State → List FrameInput → State × List FrameEffects × Bool
  | s, [] => (s, [], true)
  | s, i :: is =>
    match step s i with
    | StepResult.fatal s' => (s', [], false)
    | StepResult.ok s' e =>
      let t := runTrace step s' is
      (t.1, e :: t.2.1, t.2.2)

/-- A frame input whose detector outcome is a successful batch containing
no person entry (used to express "no further person detection"). -/
def goodNoPerson (i : FrameInput) : Prop :=
  ∃ raws, i.detector = Except.ok raws ∧ ∀ d ∈ raws, d.label ≠ personLabel

/-- At most one of the three audio categories actually played this frame. -/
def atMostOneAudio (e : FrameEffects) : Prop :=
  ¬(e.playedPerson = true ∧ e.playedAnimal = true) ∧
  ¬(e.playedPerson = true ∧ e.playedMotion = true) ∧
  ¬(e.playedAnimal = true ∧ e.playedMotion = true)

/-- Modelled from the spec: the per-category throttle abstraction
`allow(category, now, cooldown)` of spec section 4.4, with a `last_fired`
map indexed by category — "returns true and atomically updates
`last_fired[category] = now` iff `now - last_fired[category] >= cooldown`;
otherwise returns false with no state change".  The repository has no such
per-category map for audio alerts; this definition exists only to compare
the spec's reading with the code's single shared variable. -/
def allow_spec (lastFired : String → ℚ) (category : String) (now cooldown : ℚ) :
    Bool × (String → ℚ) :=
  if cooldown ≤ now - lastFired category then
    (true, fun c => if c = category then now else lastFired c)
  else (false, lastFired)

/-- Category name used with `allow_spec`. -/
def motionAlertCat : String := "motion-alert"

/-- Category name used with `allow_spec`. -/
def personAlertCat : String := "person-alert"

/-- A concrete person detection used in counterexamples. -/
def personDet : Detection := ⟨personLabel, 9/10, (10, 10, 50, 50)⟩

/-- A concrete cat detection used in counterexamples. -/
def catDet : Detection := ⟨catLabel, 8/10, (0, 0, 20, 20)⟩

lemma cat_ne_person : ¬(("cat" : String) = "person") := by decide

lemma dog_ne_person : ¬(("dog" : String) = "person") := by decide

lemma cat_ne_dog : ¬(("cat" : String) = "dog") := by decide

lemma person_ne_cat : ¬(("person" : String) = "cat") := by decide

lemma person_ne_dog : ¬(("person" : String) = "dog") := by decide

example : filterAllowed [catDet, personDet] = [catDet, personDet] := by
  norm_num [filterAllowed, catDet, personDet, allowed_labels, personLabel, catLabel, dogLabel]
example : (headlessDispatch [catDet, personDet] 0 50).dispatchedAnimal = true := by
  norm_num [headlessDispatch, catDet, personDet, personLabel, catLabel, play_gtts_text,
    cat_ne_person]
example : (headlessDispatch [catDet, personDet] 0 50).disable = false := by
  norm_num [headlessDispatch, catDet, personDet, personLabel, catLabel, play_gtts_text,
    cat_ne_person]
example : isFatal (headlessStep (initState 5) ⟨50, Except.error (), false, 0⟩) = true := by
  norm_num [headlessStep, initState, isFatal]
example : (resultEffects (headlessStep (initState 5) ⟨50, Except.ok [], true, 0⟩)).playedMotion
    = true := by
  norm_num [headlessStep, initState, resultEffects, headlessTailEffects, headlessDispatch,
    noDispatch, filterAllowed, play_gtts_text]

/-! Helper lemmas about the embedded operations. -/

lemma play_played_iff (t : String) (c sp l n : ℚ) :
    (play_gtts_text t c sp l n).played = true ↔ c ≤ n - l := by
  unfold play_gtts_text
  split_ifs with h
  · simp
    linarith
  · simp
    linarith

lemma play_true_last (t : String) (c sp l n : ℚ)
    (h : (play_gtts_text t c sp l n).played = true) :
    (play_gtts_text t c sp l n).last_audio_time = n := by
  unfold play_gtts_text at *
  split_ifs at h ⊢
  rfl

lemma play_false_last (t : String) (c sp l n : ℚ)
    (h : (play_gtts_text t c sp l n).played = false) :
    (play_gtts_text t c sp l n).last_audio_time = l := by
  unfold play_gtts_text at *
  split_ifs at h ⊢
  rfl

lemma play_self_blocked (t : String) (c sp n : ℚ) (hc : 0 < c) :
    (play_gtts_text t c sp n n).played = false := by
  unfold play_gtts_text
  rw [if_pos (by linarith)]

lemma filterAllowed_nil : filterAllowed [] = [] := rfl

lemma filterAllowed_cons (d : Detection) (ds : List Detection) :
    filterAllowed (d :: ds) =
      if allowed_labels.contains d.label then d :: filterAllowed ds
      else filterAllowed ds := by
  simp [filterAllowed, List.filter_cons]

lemma mem_filterAllowed_of_person {d : Detection} {raws : List Detection}
    (hd : d ∈ raws) (hl : d.label = personLabel) : d ∈ filterAllowed raws := by
  unfold filterAllowed
  rw [List.mem_filter]
  refine ⟨hd, ?_⟩
  rw [hl]
  decide

lemma label_mem_filterAllowed {d : Detection} {raws : List Detection}
    (hd : d ∈ filterAllowed raws) : d ∈ raws := by
  unfold filterAllowed at hd
  exact (List.mem_filter.mp hd).1

/-! Lemmas about the headless dispatch loop. -/

lemma headlessDispatch_no_person (dets : List Detection) (l n : ℚ)
    (h : ∀ d ∈ dets, d.label ≠ personLabel) :
    (headlessDispatch dets l n).disable = false ∧
    (headlessDispatch dets l n).dispatchedPerson = false ∧
    (headlessDispatch dets l n).playedPerson = false := by
  induction dets with
  | nil => simp [headlessDispatch, noDispatch]
  | cons d rest ih =>
    have hd : d.label ≠ personLabel := h d (List.mem_cons_self d rest)
    unfold headlessDispatch
    rw [if_neg hd]
    split_ifs with h2
    · simp
    · exact ih (fun x hx => h x (List.mem_cons_of_mem d hx))

lemma headlessDispatch_person_head (d : Detection) (rest : List Detection) (l n : ℚ)
    (h : d.label = personLabel) :
    headlessDispatch (d :: rest) l n =
      ⟨true, false, (play_gtts_text textPersonH 3 1.71 l n).played, false,
        (play_gtts_text textPersonH 3 1.71 l n).last_audio_time, true⟩ := by
  unfold headlessDispatch
  rw [if_pos h]

lemma headlessDispatch_animal_head (d : Detection) (rest : List Detection) (l n : ℚ)
    (hne : d.label ≠ personLabel) (h : d.label = catLabel ∨ d.label = dogLabel) :
    headlessDispatch (d :: rest) l n =
      ⟨false, true, false, (play_gtts_text textAnimalH 3 1.71 l n).played,
        (play_gtts_text textAnimalH 3 1.71 l n).last_audio_time, false⟩ := by
  unfold headlessDispatch
  rw [if_neg hne, if_pos h]

lemma headlessDispatch_audio (dets : List Detection) (l n : ℚ) :
    ¬((headlessDispatch dets l n).playedPerson = true ∧
      (headlessDispatch dets l n).playedAnimal = true) ∧
    ((headlessDispatch dets l n).playedPerson = true ∨
      (headlessDispatch dets l n).playedAnimal = true →
      (headlessDispatch dets l n).last_audio_time = n) ∧
    ((headlessDispatch dets l n).playedPerson = false ∧
      (headlessDispatch dets l n).playedAnimal = false →
      (headlessDispatch dets l n).last_audio_time = l) := by
  induction dets with
  | nil => simp [headlessDispatch, noDispatch]
  | cons d rest ih =>
    unfold headlessDispatch
    split_ifs with h1 h2
    · refine ⟨by simp, ?_, ?_⟩
      · intro hp
        simp only at hp ⊢
        rcases hp with hp | hp
        · exact play_true_last _ _ _ _ _ hp
        · simp at hp
      · intro hp
        simp only at hp ⊢
        exact play_false_last _ _ _ _ _ hp.1
    · refine ⟨by simp, ?_, ?_⟩
      · intro hp
        simp only at hp ⊢
        rcases hp with hp | hp
        · simp at hp
        · exact play_true_last _ _ _ _ _ hp
      · intro hp
        simp only at hp ⊢
        exact play_false_last _ _ _ _ _ hp.2
    · exact ih

/-! Lemmas about the GUI dispatch loop. -/

lemma guiDispatch_no_animal (dets : List Detection) (l n : ℚ) :
    (guiDispatch dets l n).dispatchedAnimal = false ∧
    (guiDispatch dets l n).playedAnimal = false := by
  induction dets with
  | nil => simp [guiDispatch, noDispatch]
  | cons d rest ih =>
    unfold guiDispatch
    split_ifs with h1
    · simp
    · exact ih

lemma guiDispatch_no_person (dets : List Detection) (l n : ℚ)
    (h : ∀ d ∈ dets, d.label ≠ personLabel) :
    (guiDispatch dets l n).disable = false ∧
    (guiDispatch dets l n).dispatchedPerson = false ∧
    (guiDispatch dets l n).playedPerson = false := by
  induction dets with
  | nil => simp [guiDispatch, noDispatch]
  | cons d rest ih =>
    have hd : d.label ≠ personLabel := h d (List.mem_cons_self d rest)
    unfold guiDispatch
    rw [if_neg hd]
    exact ih (fun x hx => h x (List.mem_cons_of_mem d hx))

lemma guiDispatch_person_mem (dets : List Detection) (l n : ℚ)
    (h : ∃ d ∈ dets, d.label = personLabel) :
    (guiDispatch dets l n).disable = true ∧
    (guiDispatch dets l n).dispatchedPerson = true := by
  induction dets with
  | nil => simp at h
  | cons d rest ih =>
    unfold guiDispatch
    split_ifs with h1
    · simp
    · apply ih
      rcases h with ⟨x, hx, hlx⟩
      rcases List.mem_cons.mp hx with rfl | hx'
      · exact absurd hlx h1
      · exact ⟨x, hx', hlx⟩

lemma guiDispatch_audio (dets : List Detection) (l n : ℚ) :
    ((guiDispatch dets l n).playedPerson = true →
      (guiDispatch dets l n).last_audio_time = n) ∧
    ((guiDispatch dets l n).playedPerson = false →
      (guiDispatch dets l n).last_audio_time = l) := by
  induction dets with
  | nil => simp [guiDispatch, noDispatch]
  | cons d rest ih =>
    unfold guiDispatch
    split_ifs with h1
    · constructor
      · intro hp
        simp only at hp ⊢
        exact play_true_last _ _ _ _ _ hp
      · intro hp
        simp only at hp ⊢
        exact play_false_last _ _ _ _ _ hp
    · exact ih

/-! Unfold lemmas for the two step functions. -/

lemma headlessStep_skip (s : State) (i : FrameInput)
    (h : ¬ s.frame_count % s.frame_skip = 0) :
    headlessStep s i = StepResult.ok
      (headlessTailState s i s.persistent_detections (noDispatch s.last_audio_time))
      (headlessTailEffects s i s.persistent_detections (noDispatch s.last_audio_time) false) := by
  unfold headlessStep
  rw [if_neg h]

lemma headlessStep_det (s : State) (i : FrameInput) (raws : List Detection)
    (h : s.frame_count % s.frame_skip = 0) (hd : i.detector = Except.ok raws) :
    headlessStep s i = StepResult.ok
      (headlessTailState s i (filterAllowed raws)
        (headlessDispatch (filterAllowed raws) s.last_audio_time i.now))
      (headlessTailEffects s i (filterAllowed raws)
        (headlessDispatch (filterAllowed raws) s.last_audio_time i.now) true) := by
  unfold headlessStep
  rw [if_pos h, hd]

lemma headlessStep_err (s : State) (i : FrameInput) (u : Unit)
    (h : s.frame_count % s.frame_skip = 0) (hd : i.detector = Except.error u) :
    headlessStep s i = StepResult.fatal s := by
  unfold headlessStep
  rw [if_pos h, hd]

lemma guiStep_skip (s : State) (i : FrameInput)
    (h : ¬ s.frame_count % s.frame_skip = 0) :
    guiStep s i = StepResult.ok
      (guiTailState s i s.persistent_detections (noDispatch s.last_audio_time))
      (guiTailEffects s i s.persistent_detections (noDispatch s.last_audio_time) false) := by
  unfold guiStep
  rw [if_neg h]

lemma guiStep_det (s : State) (i : FrameInput) (raws : List Detection)
    (h : s.frame_count % s.frame_skip = 0) (hd : i.detector = Except.ok raws) :
    guiStep s i = StepResult.ok
      (guiTailState s i (filterAllowed raws)
        (guiDispatch (filterAllowed raws) s.last_audio_time i.now))
      (guiTailEffects s i (filterAllowed raws)
        (guiDispatch (filterAllowed raws) s.last_audio_time i.now) true) := by
  unfold guiStep
  rw [if_pos h, hd]

lemma guiStep_err (s : State) (i : FrameInput) (u : Unit)
    (h : s.frame_count % s.frame_skip = 0) (hd : i.detector = Except.error u) :
    guiStep s i = StepResult.fatal s := by
  unfold guiStep
  rw [if_pos h, hd]

/-! Projection lemmas for the loop tails. -/

lemma hts_enabled (s : State) (i : FrameInput) (dets : List Detection) (dr : DispatchResult) :
    (headlessTailState s i dets dr).motion_enabled =
      (if (if dr.disable then false else s.motion_enabled) then true
       else if (if dr.disable then i.now + 20 else s.motion_disabled_until) ≤ i.now then true
       else false) := rfl

lemma hts_until (s : State) (i : FrameInput) (dets : List Detection) (dr : DispatchResult) :
    (headlessTailState s i dets dr).motion_disabled_until =
      (if dr.disable then i.now + 20 else s.motion_disabled_until) := rfl

lemma hts_cache (s : State) (i : FrameInput) (dets : List Detection) (dr : DispatchResult) :
    (headlessTailState s i dets dr).persistent_detections = dets := rfl

lemma hts_count (s : State) (i : FrameInput) (dets : List Detection) (dr : DispatchResult) :
    (headlessTailState s i dets dr).frame_count = s.frame_count + 1 := rfl

lemma hts_skip (s : State) (i : FrameInput) (dets : List Detection) (dr : DispatchResult) :
    (headlessTailState s i dets dr).frame_skip = s.frame_skip := rfl

lemma hts_audio (s : State) (i : FrameInput) (dets : List Detection) (dr : DispatchResult) :
    (headlessTailState s i dets dr).last_audio_time =
      (if ((if dr.disable then false else s.motion_enabled) && i.significantMotion &&
            decide ((0.2 : ℚ) ≤ i.now - s.lastSavedMotion))
       then (play_gtts_text textMotionH 10 2.22 dr.last_audio_time i.now).last_audio_time
       else dr.last_audio_time) := rfl

lemma hts_lastSavedMotion (s : State) (i : FrameInput) (dets : List Detection)
    (dr : DispatchResult) :
    (headlessTailState s i dets dr).lastSavedMotion =
      (if ((if dr.disable then false else s.motion_enabled) && i.significantMotion &&
            decide ((0.2 : ℚ) ≤ i.now - s.lastSavedMotion))
       then i.now else s.lastSavedMotion) := rfl

lemma hte_motionChecked (s : State) (i : FrameInput) (dets : List Detection)
    (dr : DispatchResult) (b : Bool) :
    (headlessTailEffects s i dets dr b).motionChecked =
      (if dr.disable then false else s.motion_enabled) := rfl

lemma hte_detInvoked (s : State) (i : FrameInput) (dets : List Detection)
    (dr : DispatchResult) (b : Bool) :
    (headlessTailEffects s i dets dr b).detectorInvoked = b := rfl

lemma hte_dispatchedPerson (s : State) (i : FrameInput) (dets : List Detection)
    (dr : DispatchResult) (b : Bool) :
    (headlessTailEffects s i dets dr b).dispatchedPerson = dr.dispatchedPerson := rfl

lemma hte_dispatchedAnimal (s : State) (i : FrameInput) (dets : List Detection)
    (dr : DispatchResult) (b : Bool) :
    (headlessTailEffects s i dets dr b).dispatchedAnimal = dr.dispatchedAnimal := rfl

lemma hte_playedPerson (s : State) (i : FrameInput) (dets : List Detection)
    (dr : DispatchResult) (b : Bool) :
    (headlessTailEffects s i dets dr b).playedPerson = dr.playedPerson := rfl

lemma hte_playedAnimal (s : State) (i : FrameInput) (dets : List Detection)
    (dr : DispatchResult) (b : Bool) :
    (headlessTailEffects s i dets dr b).playedAnimal = dr.playedAnimal := rfl

lemma hte_dispatchedMotion (s : State) (i : FrameInput) (dets : List Detection)
    (dr : DispatchResult) (b : Bool) :
    (headlessTailEffects s i dets dr b).dispatchedMotion =
      ((if dr.disable then false else s.motion_enabled) && i.significantMotion &&
        decide ((0.2 : ℚ) ≤ i.now - s.lastSavedMotion)) := rfl

lemma hte_playedMotion (s : State) (i : FrameInput) (dets : List Detection)
    (dr : DispatchResult) (b : Bool) :
    (headlessTailEffects s i dets dr b).playedMotion =
      (((if dr.disable then false else s.motion_enabled) && i.significantMotion &&
        decide ((0.2 : ℚ) ≤ i.now - s.lastSavedMotion)) &&
        (play_gtts_text textMotionH 10 2.22 dr.last_audio_time i.now).played) := rfl

lemma hte_savedMotion (s : State) (i : FrameInput) (dets : List Detection)
    (dr : DispatchResult) (b : Bool) :
    (headlessTailEffects s i dets dr b).savedMotionFrames =
      (if ((if dr.disable then false else s.motion_enabled) && i.significantMotion &&
            decide ((0.2 : ℚ) ≤ i.now - s.lastSavedMotion))
       then [(i.frameId, dets)] else []) := rfl

lemma gts_enabled (s : State) (i : FrameInput) (dets : List Detection) (dr : DispatchResult) :
    (guiTailState s i dets dr).motion_enabled =
      (if (if dr.disable then false else s.motion_enabled) then true
       else if (if dr.disable then i.now + 20 else s.motion_disabled_until) ≤ i.now then true
       else false) := rfl

lemma gts_until (s : State) (i : FrameInput) (dets : List Detection) (dr : DispatchResult) :
    (guiTailState s i dets dr).motion_disabled_until =
      (if dr.disable then i.now + 20 else s.motion_disabled_until) := rfl

lemma gts_cache (s : State) (i : FrameInput) (dets : List Detection) (dr : DispatchResult) :
    (guiTailState s i dets dr).persistent_detections = dets := rfl

lemma gts_audio (s : State) (i : FrameInput) (dets : List Detection) (dr : DispatchResult) :
    (guiTailState s i dets dr).last_audio_time =
      (if ((if dr.disable then false else s.motion_enabled) && i.significantMotion)
       then (play_gtts_text textMotionG 10 1.61 dr.last_audio_time i.now).last_audio_time
       else dr.last_audio_time) := rfl

lemma gte_motionChecked (s : State) (i : FrameInput) (dets : List Detection)
    (dr : DispatchResult) (b : Bool) :
    (guiTailEffects s i dets dr b).motionChecked =
      (if dr.disable then false else s.motion_enabled) := rfl

lemma gte_detInvoked (s : State) (i : FrameInput) (dets : List Detection)
    (dr : DispatchResult) (b : Bool) :
    (guiTailEffects s i dets dr b).detectorInvoked = b := rfl

lemma gte_dispatchedPerson (s : State) (i : FrameInput) (dets : List Detection)
    (dr : DispatchResult) (b : Bool) :
    (guiTailEffects s i dets dr b).dispatchedPerson = dr.dispatchedPerson := rfl

lemma gte_dispatchedAnimal (s : State) (i : FrameInput) (dets : List Detection)
    (dr : DispatchResult) (b : Bool) :
    (guiTailEffects s i dets dr b).dispatchedAnimal = dr.dispatchedAnimal := rfl

lemma gte_playedPerson (s : State) (i : FrameInput) (dets : List Detection)
    (dr : DispatchResult) (b : Bool) :
    (guiTailEffects s i dets dr b).playedPerson = dr.playedPerson := rfl

lemma gte_playedAnimal (s : State) (i : FrameInput) (dets : List Detection)
    (dr : DispatchResult) (b : Bool) :
    (guiTailEffects s i dets dr b).playedAnimal = dr.playedAnimal := rfl

lemma gte_dispatchedMotion (s : State) (i : FrameInput) (dets : List Detection)
    (dr : DispatchResult) (b : Bool) :
    (guiTailEffects s i dets dr b).dispatchedMotion =
      ((if dr.disable then false else s.motion_enabled) && i.significantMotion) := rfl

lemma gte_playedMotion (s : State) (i : FrameInput) (dets : List Detection)
    (dr : DispatchResult) (b : Bool) :
    (guiTailEffects s i dets dr b).playedMotion =
      (((if dr.disable then false else s.motion_enabled) && i.significantMotion) &&
        (play_gtts_text textMotionG 10 1.61 dr.last_audio_time i.now).played) := rfl

lemma gte_savedMotion (s : State) (i : FrameInput) (dets : List Detection)
    (dr : DispatchResult) (b : Bool) :
    (guiTailEffects s i dets dr b).savedMotionFrames =
      (if ((if dr.disable then false else s.motion_enabled) && i.significantMotion)
       then [(i.frameId, [])] else []) := rfl

/-! Motion-gate preservation lemmas. -/

lemma tailState_keep_disabled (s : State) (i : FrameInput) (dets : List Detection)
    (dr : DispatchResult) (hd : dr.disable = false) (hs : s.motion_enabled = false)
    (ht : i.now < s.motion_disabled_until) :
    (headlessTailState s i dets dr).motion_enabled = false ∧
    (headlessTailState s i dets dr).motion_disabled_until = s.motion_disabled_until := by
  rw [hts_enabled, hts_until, hd]
  simp [hs, not_le.mpr ht]

lemma tailState_reenable (s : State) (i : FrameInput) (dets : List Detection)
    (dr : DispatchResult) (hd : dr.disable = false) (hs : s.motion_enabled = false)
    (ht : s.motion_disabled_until ≤ i.now) :
    (headlessTailState s i dets dr).motion_enabled = true := by
  rw [hts_enabled, hd]
  simp [hs, ht]

lemma tailState_disable (s : State) (i : FrameInput) (dets : List Detection)
    (dr : DispatchResult) (hd : dr.disable = true) :
    (headlessTailState s i dets dr).motion_enabled = false ∧
    (headlessTailState s i dets dr).motion_disabled_until = i.now + 20 := by
  rw [hts_enabled, hts_until, hd]
  norm_num

lemma gtailState_keep_disabled (s : State) (i : FrameInput) (dets : List Detection)
    (dr : DispatchResult) (hd : dr.disable = false) (hs : s.motion_enabled = false)
    (ht : i.now < s.motion_disabled_until) :
    (guiTailState s i dets dr).motion_enabled = false ∧
    (guiTailState s i dets dr).motion_disabled_until = s.motion_disabled_until := by
  rw [gts_enabled, gts_until, hd]
  simp [hs, not_le.mpr ht]

lemma gtailState_reenable (s : State) (i : FrameInput) (dets : List Detection)
    (dr : DispatchResult) (hd : dr.disable = false) (hs : s.motion_enabled = false)
    (ht : s.motion_disabled_until ≤ i.now) :
    (guiTailState s i dets dr).motion_enabled = true := by
  rw [gts_enabled, hd]
  simp [hs, ht]

lemma gtailState_disable (s : State) (i : FrameInput) (dets : List Detection)
    (dr : DispatchResult) (hd : dr.disable = true) :
    (guiTailState s i dets dr).motion_enabled = false ∧
    (guiTailState s i dets dr).motion_disabled_until = i.now + 20 := by
  rw [gts_enabled, gts_until, hd]
  norm_num

/-- While the headless gate is disabled and no person is detected, a frame
earlier than `motion_disabled_until` keeps the gate disabled, keeps the
window, and skips motion sensing. -/
lemma headlessStep_keep_disabled (s : State) (i : FrameInput)
    (hs : s.motion_enabled = false) (hi : goodNoPerson i)
    (ht : i.now < s.motion_disabled_until) :
    isFatal (headlessStep s i) = false ∧
    (resultState (headlessStep s i)).motion_enabled = false ∧
    (resultState (headlessStep s i)).motion_disabled_until = s.motion_disabled_until ∧
    (resultEffects (headlessStep s i)).motionChecked = false := by
  obtain ⟨raws, hdet, hnp⟩ := hi
  by_cases hmod : s.frame_count % s.frame_skip = 0
  · rw [headlessStep_det s i raws hmod hdet]
    have hnd := headlessDispatch_no_person (filterAllowed raws) s.last_audio_time i.now
      (fun d hd => hnp d (label_mem_filterAllowed hd))
    have hk := tailState_keep_disabled s i (filterAllowed raws) _ hnd.1 hs ht
    exact ⟨rfl, hk.1, hk.2, by rw [resultEffects, hte_motionChecked, hnd.1, if_neg Bool.false_ne_true, hs]⟩
  · rw [headlessStep_skip s i hmod]
    have hk := tailState_keep_disabled s i s.persistent_detections
      (noDispatch s.last_audio_time) rfl hs ht
    exact ⟨rfl, hk.1, hk.2, by rw [resultEffects, hte_motionChecked, noDispatch, if_neg Bool.false_ne_true, hs]⟩

/-- Same for the GUI loop. -/
lemma guiStep_keep_disabled (s : State) (i : FrameInput)
    (hs : s.motion_enabled = false) (hi : goodNoPerson i)
    (ht : i.now < s.motion_disabled_until) :
    isFatal (guiStep s i) = false ∧
    (resultState (guiStep s i)).motion_enabled = false ∧
    (resultState (guiStep s i)).motion_disabled_until = s.motion_disabled_until ∧
    (resultEffects (guiStep s i)).motionChecked = false := by
  obtain ⟨raws, hdet, hnp⟩ := hi
  by_cases hmod : s.frame_count % s.frame_skip = 0
  · rw [guiStep_det s i raws hmod hdet]
    have hnd := guiDispatch_no_person (filterAllowed raws) s.last_audio_time i.now
      (fun d hd => hnp d (label_mem_filterAllowed hd))
    have hk := gtailState_keep_disabled s i (filterAllowed raws) _ hnd.1 hs ht
    exact ⟨rfl, hk.1, hk.2, by rw [resultEffects, gte_motionChecked, hnd.1, if_neg Bool.false_ne_true, hs]⟩
  · rw [guiStep_skip s i hmod]
    have hk := gtailState_keep_disabled s i s.persistent_detections
      (noDispatch s.last_audio_time) rfl hs ht
    exact ⟨rfl, hk.1, hk.2, by rw [resultEffects, gte_motionChecked, noDispatch, if_neg Bool.false_ne_true, hs]⟩

/-- While the headless gate is disabled and no person is detected, a frame at
or after `motion_disabled_until` re-enables the gate. -/
lemma headlessStep_reenable (s : State) (i : FrameInput)
    (hs : s.motion_enabled = false) (hi : goodNoPerson i)
    (ht : s.motion_disabled_until ≤ i.now) :
    isFatal (headlessStep s i) = false ∧
    (resultState (headlessStep s i)).motion_enabled = true := by
  obtain ⟨raws, hdet, hnp⟩ := hi
  by_cases hmod : s.frame_count % s.frame_skip = 0
  · rw [headlessStep_det s i raws hmod hdet]
    have hnd := headlessDispatch_no_person (filterAllowed raws) s.last_audio_time i.now
      (fun d hd => hnp d (label_mem_filterAllowed hd))
    exact ⟨rfl, tailState_reenable s i (filterAllowed raws) _ hnd.1 hs ht⟩
  · rw [headlessStep_skip s i hmod]
    exact ⟨rfl, tailState_reenable s i s.persistent_detections
      (noDispatch s.last_audio_time) rfl hs ht⟩

/-- Same for the GUI loop. -/
lemma guiStep_reenable (s : State) (i : FrameInput)
    (hs : s.motion_enabled = false) (hi : goodNoPerson i)
    (ht : s.motion_disabled_until ≤ i.now) :
    isFatal (guiStep s i) = false ∧
    (resultState (guiStep s i)).motion_enabled = true := by
  obtain ⟨raws, hdet, hnp⟩ := hi
  by_cases hmod : s.frame_count % s.frame_skip = 0
  · rw [guiStep_det s i raws hmod hdet]
    have hnd := guiDispatch_no_person (filterAllowed raws) s.last_audio_time i.now
      (fun d hd => hnp d (label_mem_filterAllowed hd))
    exact ⟨rfl, gtailState_reenable s i (filterAllowed raws) _ hnd.1 hs ht⟩
  · rw [guiStep_skip s i hmod]
    exact ⟨rfl, gtailState_reenable s i s.persistent_detections
      (noDispatch s.last_audio_time) rfl hs ht⟩

/-- Over any run of non-person frames all earlier than the suppression
deadline, the headless gate stays disabled, the deadline is unchanged and
motion sensing never runs. -/
lemma headless_trace_disabled (is : List FrameInput) :
    ∀ (s : State), s.motion_enabled = false →
    (∀ i ∈ is, goodNoPerson i ∧ i.now < s.motion_disabled_until) →
    (runTrace headlessStep s is).2.2 = true ∧
    (runTrace headlessStep s is).1.motion_enabled = false ∧
    (runTrace headlessStep s is).1.motion_disabled_until = s.motion_disabled_until ∧
    ∀ e ∈ (runTrace headlessStep s is).2.1, e.motionChecked = false := by
  induction is with
  | nil =>
    intro s hs _
    simp [runTrace, hs]
  | cons i is ih =>
    intro s hs hall
    have hmem := hall i (List.mem_cons_self i is)
    obtain ⟨hf, hen, hun, hmc⟩ := headlessStep_keep_disabled s i hs hmem.1 hmem.2
    cases hstep : headlessStep s i with
    | fatal s' =>
      rw [hstep] at hf
      simp [isFatal] at hf
    | ok s' e =>
      rw [hstep] at hen hun hmc
      simp only [resultState, resultEffects] at hen hun hmc
      have hall' : ∀ j ∈ is, goodNoPerson j ∧ j.now < s'.motion_disabled_until := by
        intro j hj
        have hjm := hall j (List.mem_cons_of_mem i hj)
        exact ⟨hjm.1, by rw [hun]; exact hjm.2⟩
      have ihr := ih s' hen hall'
      simp only [runTrace, hstep]
      refine ⟨ihr.1, ihr.2.1, ihr.2.2.1.trans hun, ?_⟩
      intro x hx
      rcases List.mem_cons.mp hx with rfl | hx'
      · exact hmc
      · exact ihr.2.2.2 x hx'

/-- Same for the GUI loop. -/
lemma gui_trace_disabled (is : List FrameInput) :
    ∀ (s : State), s.motion_enabled = false →
    (∀ i ∈ is, goodNoPerson i ∧ i.now < s.motion_disabled_until) →
    (runTrace guiStep s is).2.2 = true ∧
    (runTrace guiStep s is).1.motion_enabled = false ∧
    (runTrace guiStep s is).1.motion_disabled_until = s.motion_disabled_until ∧
    ∀ e ∈ (runTrace guiStep s is).2.1, e.motionChecked = false := by
  induction is with
  | nil =>
    intro s hs _
    simp [runTrace, hs]
  | cons i is ih =>
    intro s hs hall
    have hmem := hall i (List.mem_cons_self i is)
    obtain ⟨hf, hen, hun, hmc⟩ := guiStep_keep_disabled s i hs hmem.1 hmem.2
    cases hstep : guiStep s i with
    | fatal s' =>
      rw [hstep] at hf
      simp [isFatal] at hf
    | ok s' e =>
      rw [hstep] at hen hun hmc
      simp only [resultState, resultEffects] at hen hun hmc
      have hall' : ∀ j ∈ is, goodNoPerson j ∧ j.now < s'.motion_disabled_until := by
        intro j hj
        have hjm := hall j (List.mem_cons_of_mem i hj)
        exact ⟨hjm.1, by rw [hun]; exact hjm.2⟩
      have ihr := ih s' hen hall'
      simp only [runTrace, hstep]
      refine ⟨ihr.1, ihr.2.1, ihr.2.2.1.trans hun, ?_⟩
      intro x hx
      rcases List.mem_cons.mp hx with rfl | hx'
      · exact hmc
      · exact ihr.2.2.2 x hx'

/-- A detector frame whose filtered batch starts with a person entry
disables the headless gate for 20 seconds from `now` and skips motion
sensing on that very frame. -/
lemma headlessStep_person_first (s : State) (i : FrameInput) (raws : List Detection)
    (d : Detection) (hmod : s.frame_count % s.frame_skip = 0)
    (hdet : i.detector = Except.ok raws)
    (hhead : (filterAllowed raws).head? = some d) (hl : d.label = personLabel) :
    isFatal (headlessStep s i) = false ∧
    (resultState (headlessStep s i)).motion_enabled = false ∧
    (resultState (headlessStep s i)).motion_disabled_until = i.now + 20 ∧
    (resultEffects (headlessStep s i)).motionChecked = false ∧
    (resultEffects (headlessStep s i)).dispatchedPerson = true := by
  rw [headlessStep_det s i raws hmod hdet]
  cases hfa : filterAllowed raws with
  | nil =>
    rw [hfa] at hhead
    simp at hhead
  | cons d' rest =>
    rw [hfa] at hhead
    simp only [List.head?_cons, Option.some.injEq] at hhead
    subst hhead
    have hdr := headlessDispatch_person_head d' rest s.last_audio_time i.now hl
    rw [hdr]
    have hdis := tailState_disable s i (d' :: rest)
      ⟨true, false, (play_gtts_text textPersonH 3 1.71 s.last_audio_time i.now).played, false,
        (play_gtts_text textPersonH 3 1.71 s.last_audio_time i.now).last_audio_time, true⟩ rfl
    exact ⟨rfl, hdis.1, hdis.2, by rw [resultEffects, hte_motionChecked]; norm_num,
      by rw [resultEffects, hte_dispatchedPerson]⟩

/-- A detector frame whose batch contains a person entry disables the GUI
gate for 20 seconds from `now` and skips motion sensing on that frame. -/
lemma guiStep_person (s : State) (i : FrameInput) (raws : List Detection)
    (d : Detection) (hmod : s.frame_count % s.frame_skip = 0)
    (hdet : i.detector = Except.ok raws)
    (hmem : d ∈ raws) (hl : d.label = personLabel) :
    isFatal (guiStep s i) = false ∧
    (resultState (guiStep s i)).motion_enabled = false ∧
    (resultState (guiStep s i)).motion_disabled_until = i.now + 20 ∧
    (resultEffects (guiStep s i)).motionChecked = false ∧
    (resultEffects (guiStep s i)).dispatchedPerson = true := by
  rw [guiStep_det s i raws hmod hdet]
  have hdr := guiDispatch_person_mem (filterAllowed raws) s.last_audio_time i.now
    ⟨d, mem_filterAllowed_of_person hmem hl, hl⟩
  have hdis := gtailState_disable s i (filterAllowed raws) _ hdr.1
  refine ⟨rfl, hdis.1, hdis.2, ?_, ?_⟩
  · rw [resultEffects, gte_motionChecked, hdr.1]
    norm_num
  · rw [resultEffects, gte_dispatchedPerson, hdr.2]

lemma contains_person : allowed_labels.contains personLabel = true := by decide

lemma contains_cat : allowed_labels.contains catLabel = true := by decide

lemma contains_dog : allowed_labels.contains dogLabel = true := by decide

/-! Claim theorems. -/

/-- C6 (amended): the audio-throttle check-and-update of `play_gtts_text`
returns true and updates its `last_audio_time` cell to `now` iff
`now - last_audio_time >= cooldown`; on a false result the cell is
unchanged, and each true result performs exactly one update.  The cell,
however, is a single module global shared by every audio alert category,
not a per-category `last_fired[category]` entry. -/
theorem c6_shared_throttle_iff (t : String) (c sp l n : ℚ) :
    ((play_gtts_text t c sp l n).played = true ↔ c ≤ n - l) ∧
    ((play_gtts_text t c sp l n).played = true →
      (play_gtts_text t c sp l n).last_audio_time = n) ∧
    ((play_gtts_text t c sp l n).played = false →
      (play_gtts_text t c sp l n).last_audio_time = l) :=
  ⟨play_played_iff t c sp l n, play_true_last t c sp l n, play_false_last t c sp l n⟩

/-- C6 witness: with cooldown 3, a call at distance 5 from the cell fires
and moves the cell to `now`; a call at distance 1 is refused and leaves
the cell untouched. -/
theorem c6_shared_throttle_iff_witness :
    (play_gtts_text textPersonH 3 1.71 0 5).played = true ∧
    (play_gtts_text textPersonH 3 1.71 0 5).last_audio_time = 5 ∧
    (play_gtts_text textPersonH 3 1.71 4 5).played = false ∧
    (play_gtts_text textPersonH 3 1.71 4 5).last_audio_time = 4 := by
  have h1 := (c6_shared_throttle_iff textPersonH 3 1.71 0 5).1.mpr (by norm_num)
  have h2 := (c6_shared_throttle_iff textPersonH 3 1.71 0 5).2.1 h1
  have h3 : (play_gtts_text textPersonH 3 1.71 4 5).played = false := by
    cases hp : (play_gtts_text textPersonH 3 1.71 4 5).played
    · rfl
    · have := (c6_shared_throttle_iff textPersonH 3 1.71 4 5).1.mp hp
      linarith
  have h4 := (c6_shared_throttle_iff textPersonH 3 1.71 4 5).2.2 h3
  exact ⟨h1, h2, h3, h4⟩

/-- C6 counterexample: after a motion alert fires at t = 50 (cooldown 10,
both cells starting at 0), the code refuses a person alert at t = 51 with
cooldown 3 because the shared cell is at 50 — while the spec's
per-category `allow` grants it, the person category's own `last_fired`
still being 0.  The claim's per-category check-and-update is false of the
code. -/
theorem c6_counterexample :
    (play_gtts_text textMotionH 10 2.22 0 50).played = true ∧
    (play_gtts_text textPersonH 3 1.71
        ((play_gtts_text textMotionH 10 2.22 0 50).last_audio_time) 51).played = false ∧
    (allow_spec (fun _ => 0) motionAlertCat 50 10).1 = true ∧
    (allow_spec ((allow_spec (fun _ => 0) motionAlertCat 50 10).2)
        personAlertCat 51 3).1 = true := by
  refine ⟨?_, ?_, ?_, ?_⟩ <;>
    norm_num [play_gtts_text, allow_spec, motionAlertCat, personAlertCat,
      show ¬(("person-alert" : String) = "motion-alert") from by decide]

/-- C8 (code_bug): `play_gtts_text` writes the same two fixed temporary
filenames on every invocation that proceeds past the cooldown — here two
entirely different invocations (different text, cooldown, speed, times)
produce identical non-empty temp-file lists, so concurrently dispatched
audio jobs collide on a shared temporary filename instead of using
per-invocation unique names. -/
theorem c8_fixed_temp_filenames :
    (play_gtts_text textMotionH 10 2.22 0 50).tempFiles =
      (play_gtts_text textPersonH 3 1.71 50 100).tempFiles ∧
    (play_gtts_text textMotionH 10 2.22 0 50).tempFiles ≠ [] := by
  refine ⟨by norm_num [play_gtts_text], ?_⟩
  norm_num [play_gtts_text]
  exact List.cons_ne_nil _ _

/-- C5 counterexample: on a detector frame where the model raises, both
loops end in `fatal` — the uncaught exception propagates and terminates
the per-frame loop, contradicting "detector failure is never fatal to the
loop" (the cache is retained only because the exception escapes before
the clear). -/
theorem c5_counterexample :
    headlessStep (initState 5) ⟨50, Except.error (), false, 0⟩ =
      StepResult.fatal (initState 5) ∧
    guiStep (initState 5) ⟨50, Except.error (), false, 0⟩ =
      StepResult.fatal (initState 5) :=
  ⟨headlessStep_err _ _ () (by decide) rfl, guiStep_err _ _ () (by decide) rfl⟩

/-- C5 (amended): neither loop wraps the detector call in a handler: on a
detector frame whose model invocation raises, the exception propagates
out of the loop body with the object state — including the previously
cached batch — unchanged (the cache is cleared only after a successful
call), and the loop terminates; detector failure is fatal and unreported,
not tolerated. -/
theorem c5_detector_failure_fatal (s : State) (i : FrameInput) (u : Unit)
    (hmod : s.frame_count % s.frame_skip = 0) (hdet : i.detector = Except.error u) :
    headlessStep s i = StepResult.fatal s ∧ guiStep s i = StepResult.fatal s :=
  ⟨headlessStep_err s i u hmod hdet, guiStep_err s i u hmod hdet⟩

/-- C5 witness. -/
theorem c5_detector_failure_fatal_witness :
    headlessStep (initState 3) ⟨7, Except.error (), true, 2⟩ =
      StepResult.fatal (initState 3) ∧
    guiStep (initState 3) ⟨7, Except.error (), true, 2⟩ =
      StepResult.fatal (initState 3) :=
  c5_detector_failure_fatal (initState 3) ⟨7, Except.error (), true, 2⟩ ()
    (by decide) rfl

/-- C2: for any skip factor N >= 1, both loops invoke the detector exactly
on frames with `frame_count % N = 0`; on every other frame the step
cannot fail, the detector is not invoked and `persistent_detections` is
left untouched, identical to its value after the last detector
invocation. -/
theorem c2_detector_cadence (s : State) (i : FrameInput) (hN : 1 ≤ s.frame_skip) :
    (¬ s.frame_count % s.frame_skip = 0 →
      isFatal (headlessStep s i) = false ∧
      (resultEffects (headlessStep s i)).detectorInvoked = false ∧
      (resultState (headlessStep s i)).persistent_detections = s.persistent_detections ∧
      isFatal (guiStep s i) = false ∧
      (resultEffects (guiStep s i)).detectorInvoked = false ∧
      (resultState (guiStep s i)).persistent_detections = s.persistent_detections) ∧
    (s.frame_count % s.frame_skip = 0 → ∀ raws, i.detector = Except.ok raws →
      (resultEffects (headlessStep s i)).detectorInvoked = true ∧
      (resultEffects (guiStep s i)).detectorInvoked = true) := by
  constructor
  · intro h
    rw [headlessStep_skip s i h, guiStep_skip s i h]
    exact ⟨rfl, rfl, rfl, rfl, rfl, rfl⟩
  · intro h raws hdet
    rw [headlessStep_det s i raws h hdet, guiStep_det s i raws h hdet]
    exact ⟨rfl, rfl⟩

/-- C2 witness: at frame_count 2 with N = 5 the detector is skipped and a
cached person detection survives untouched; at frame_count 0 the detector
is invoked. -/
theorem c2_detector_cadence_witness :
    (resultEffects (headlessStep ⟨5, 2, 0, 0, true, 0, [personDet], 0⟩
        ⟨50, Except.ok [], false, 0⟩)).detectorInvoked = false ∧
    (resultState (headlessStep ⟨5, 2, 0, 0, true, 0, [personDet], 0⟩
        ⟨50, Except.ok [], false, 0⟩)).persistent_detections = [personDet] ∧
    (resultEffects (guiStep ⟨5, 2, 0, 0, true, 0, [personDet], 0⟩
        ⟨50, Except.ok [], false, 0⟩)).detectorInvoked = false ∧
    (resultEffects (headlessStep (initState 5)
        ⟨50, Except.ok [], false, 0⟩)).detectorInvoked = true := by
  have h := c2_detector_cadence ⟨5, 2, 0, 0, true, 0, [personDet], 0⟩
    ⟨50, Except.ok [], false, 0⟩ (by decide)
  have h1 := h.1 (by decide)
  have h2 := (c2_detector_cadence (initState 5) ⟨50, Except.ok [], false, 0⟩
    (by decide)).2 (by decide) [] rfl
  exact ⟨h1.2.1, h1.2.2.1, h1.2.2.2.2.1, h2.1⟩

/-- C1 (code_bug): all audio alert categories share the single module
global `last_audio_time`, so a successful motion-alert does NOT leave the
person category's state unchanged.  Concretely (headless loop, N = 1,
starting from `__init__` state): a motion alert fires at t = 50 and moves
the shared cell to 50; a person alert dispatched at t = 51 is then blocked
(1 < its cooldown 3) even though no person alert ever fired before. -/
theorem c1_shared_cooldown_blocks_person :
    (resultEffects (headlessStep (initState 1) ⟨50, Except.ok [], true, 0⟩)).playedMotion
      = true ∧
    (resultState (headlessStep (initState 1) ⟨50, Except.ok [], true, 0⟩)).last_audio_time
      = 50 ∧
    (resultEffects (headlessStep
        (resultState (headlessStep (initState 1) ⟨50, Except.ok [], true, 0⟩))
        ⟨51, Except.ok [personDet], false, 1⟩)).dispatchedPerson = true ∧
    (resultEffects (headlessStep
        (resultState (headlessStep (initState 1) ⟨50, Except.ok [], true, 0⟩))
        ⟨51, Except.ok [personDet], false, 1⟩)).playedPerson = false := by
  norm_num [headlessStep, initState, resultState, resultEffects, headlessTailState,
    headlessTailEffects, headlessDispatch, noDispatch, filterAllowed, play_gtts_text,
    allowed_labels, personLabel, catLabel, dogLabel, personDet, List.filter]

/-- C3 counterexample (headless loop, from the `__init__` state, N = 5):
the detector caches the batch `[cat, person]` at T = 50 — a person
detection IS cached — yet the first-match dispatch loop hits the cat
entry, `break`s, and never disables the gate: after the frame the gate is
still enabled, and on the next frame (t = 51, inside [T, T+20)) motion
sensing runs.  The claim "once a person detection is cached at time T the
enabled flag is false on every frame in [T, T+20)" is false of the code. -/
theorem c3_counterexample :
    personDet ∈ (resultState (headlessStep (initState 5)
      ⟨50, Except.ok [catDet, personDet], false, 0⟩)).persistent_detections ∧
    (resultState (headlessStep (initState 5)
      ⟨50, Except.ok [catDet, personDet], false, 0⟩)).motion_enabled = true ∧
    (resultEffects (headlessStep
        (resultState (headlessStep (initState 5)
          ⟨50, Except.ok [catDet, personDet], false, 0⟩))
        ⟨51, Except.ok [], false, 1⟩)).motionChecked = true := by
  norm_num [headlessStep, initState, resultState, resultEffects, headlessTailState,
    headlessTailEffects, headlessDispatch, noDispatch, filterAllowed, play_gtts_text,
    allowed_labels, personLabel, catLabel, dogLabel, personDet, catDet, List.filter,
    cat_ne_person]

/-- C3 (amended): once a person detection is cached at time T by a detector
frame on which the dispatch loop actually reaches the person entry — in
the headless loop this means the first allowed entry of the filtered
batch is a person; in the GUI loop any cached person suffices, wherever
it sits in the batch — the motion gate is disabled with
`motion_disabled_until = T + 20` and motion sensing is skipped on that
very frame; over any further frames with no person detection and times
in [T, T+20) the gate stays disabled, the deadline is unchanged and
motion sensing never runs; and the first no-person frame at
`now >= T + 20` re-enables the gate. -/
theorem c3_person_first_suppression
    (s : State) (i0 : FrameInput) (raws : List Detection) (T : ℚ)
    (is : List FrameInput) (j : FrameInput)
    (hmod : s.frame_count % s.frame_skip = 0)
    (hdet : i0.detector = Except.ok raws)
    (hT : i0.now = T)
    (his : ∀ i ∈ is, goodNoPerson i ∧ T ≤ i.now ∧ i.now < T + 20)
    (hj : goodNoPerson j) (hjT : T + 20 ≤ j.now) :
    (∀ d, (filterAllowed raws).head? = some d → d.label = personLabel →
      isFatal (headlessStep s i0) = false ∧
      (resultEffects (headlessStep s i0)).motionChecked = false ∧
      (resultState (headlessStep s i0)).motion_enabled = false ∧
      (resultState (headlessStep s i0)).motion_disabled_until = T + 20 ∧
      (runTrace headlessStep (resultState (headlessStep s i0)) is).2.2 = true ∧
      (runTrace headlessStep (resultState (headlessStep s i0)) is).1.motion_enabled
        = false ∧
      (runTrace headlessStep (resultState (headlessStep s i0)) is).1.motion_disabled_until
        = T + 20 ∧
      (∀ e ∈ (runTrace headlessStep (resultState (headlessStep s i0)) is).2.1,
        e.motionChecked = false) ∧
      (resultState (headlessStep
        (runTrace headlessStep (resultState (headlessStep s i0)) is).1 j)).motion_enabled
        = true) ∧
    (∀ d ∈ raws, d.label = personLabel →
      isFatal (guiStep s i0) = false ∧
      (resultEffects (guiStep s i0)).motionChecked = false ∧
      (resultState (guiStep s i0)).motion_enabled = false ∧
      (resultState (guiStep s i0)).motion_disabled_until = T + 20 ∧
      (runTrace guiStep (resultState (guiStep s i0)) is).2.2 = true ∧
      (runTrace guiStep (resultState (guiStep s i0)) is).1.motion_enabled = false ∧
      (∀ e ∈ (runTrace guiStep (resultState (guiStep s i0)) is).2.1,
        e.motionChecked = false) ∧
      (resultState (guiStep
        (runTrace guiStep (resultState (guiStep s i0)) is).1 j)).motion_enabled
        = true) := by
  subst hT
  constructor
  · intro d hhead hl
    have hp := headlessStep_person_first s i0 raws d hmod hdet hhead hl
    have hf0 := hp.1
    have hen0 := hp.2.1
    have hun0 := hp.2.2.1
    have hmc0 := hp.2.2.2.1
    have his2 : ∀ i ∈ is, goodNoPerson i ∧
        i.now < (resultState (headlessStep s i0)).motion_disabled_until := by
      intro i hi
      exact ⟨(his i hi).1, by rw [hun0]; exact (his i hi).2.2⟩
    have htr := headless_trace_disabled is (resultState (headlessStep s i0)) hen0 his2
    have hre := headlessStep_reenable
      (runTrace headlessStep (resultState (headlessStep s i0)) is).1 j htr.2.1 hj
      (by rw [htr.2.2.1, hun0]; exact hjT)
    exact ⟨hf0, hmc0, hen0, hun0, htr.1, htr.2.1, htr.2.2.1.trans hun0, htr.2.2.2, hre.2⟩
  · intro d hdmem hl
    have gp := guiStep_person s i0 raws d hmod hdet hdmem hl
    have gf0 := gp.1
    have gen0 := gp.2.1
    have gun0 := gp.2.2.1
    have gmc0 := gp.2.2.2.1
    have gis2 : ∀ i ∈ is, goodNoPerson i ∧
        i.now < (resultState (guiStep s i0)).motion_disabled_until := by
      intro i hi
      exact ⟨(his i hi).1, by rw [gun0]; exact (his i hi).2.2⟩
    have gtr := gui_trace_disabled is (resultState (guiStep s i0)) gen0 gis2
    have gre := guiStep_reenable
      (runTrace guiStep (resultState (guiStep s i0)) is).1 j gtr.2.1 hj
      (by rw [gtr.2.2.1, gun0]; exact hjT)
    exact ⟨gf0, gmc0, gen0, gun0, gtr.1, gtr.2.1, gtr.2.2.2, gre.2⟩

/-- C3 witness: headless person-first batch at T = 50, one skipped
no-person frame at 55 (gate stays off), re-enable frame at 75; and a GUI
batch `[cat, person]` — the person NOT first — which still disables the
gate until 70. -/
theorem c3_person_first_suppression_witness :
    (resultState (headlessStep (initState 5)
      ⟨50, Except.ok [personDet], false, 0⟩)).motion_enabled = false ∧
    (runTrace headlessStep
      (resultState (headlessStep (initState 5) ⟨50, Except.ok [personDet], false, 0⟩))
      [⟨55, Except.ok [], false, 1⟩]).1.motion_enabled = false ∧
    (resultState (headlessStep
      (runTrace headlessStep
        (resultState (headlessStep (initState 5) ⟨50, Except.ok [personDet], false, 0⟩))
        [⟨55, Except.ok [], false, 1⟩]).1
      ⟨75, Except.ok [], false, 2⟩)).motion_enabled = true ∧
    (resultState (guiStep (initState 5)
      ⟨50, Except.ok [catDet, personDet], false, 0⟩)).motion_enabled = false ∧
    (resultState (guiStep (initState 5)
      ⟨50, Except.ok [catDet, personDet], false, 0⟩)).motion_disabled_until = 70 := by
  have h1 := (c3_person_first_suppression (initState 5)
    ⟨50, Except.ok [personDet], false, 0⟩ [personDet] 50
    [⟨55, Except.ok [], false, 1⟩] ⟨75, Except.ok [], false, 2⟩
    (by decide) rfl rfl
    (by
      intro i hi
      simp only [List.mem_singleton] at hi
      subst hi
      exact ⟨⟨[], rfl, by simp⟩, by norm_num, by norm_num⟩)
    ⟨[], rfl, by simp⟩
    (by norm_num)).1 personDet
    (by norm_num [filterAllowed, List.filter, personDet, allowed_labels, personLabel,
      catLabel, dogLabel])
    rfl
  have h2 := (c3_person_first_suppression (initState 5)
    ⟨50, Except.ok [catDet, personDet], false, 0⟩ [catDet, personDet] 50
    [⟨55, Except.ok [], false, 1⟩] ⟨75, Except.ok [], false, 2⟩
    (by decide) rfl rfl
    (by
      intro i hi
      simp only [List.mem_singleton] at hi
      subst hi
      exact ⟨⟨[], rfl, by simp⟩, by norm_num, by norm_num⟩)
    ⟨[], rfl, by simp⟩
    (by norm_num)).2 personDet (by simp) rfl
  refine ⟨h1.2.2.1, h1.2.2.2.2.2.1, h1.2.2.2.2.2.2.2.2, h2.2.2.1, ?_⟩
  rw [h2.2.2.2.1]
  norm_num

/-- C9 counterexample (headless loop, N = 1, from `__init__` state):
a person frame at T = 50 disables the gate until 70; at T' = 60, while
still disabled, the detector caches `[cat, person]` — a person detection
is cached — but the first-match loop hits the cat entry first, so
`motion_disabled_until` stays 70 instead of being reset to T' + 20 = 80. -/
theorem c9_counterexample :
    (resultState (headlessStep (initState 1)
      ⟨50, Except.ok [personDet], false, 0⟩)).motion_enabled = false ∧
    (resultState (headlessStep (initState 1)
      ⟨50, Except.ok [personDet], false, 0⟩)).motion_disabled_until = 70 ∧
    personDet ∈ (resultState (headlessStep
        (resultState (headlessStep (initState 1) ⟨50, Except.ok [personDet], false, 0⟩))
        ⟨60, Except.ok [catDet, personDet], false, 1⟩)).persistent_detections ∧
    (resultState (headlessStep
        (resultState (headlessStep (initState 1) ⟨50, Except.ok [personDet], false, 0⟩))
        ⟨60, Except.ok [catDet, personDet], false, 1⟩)).motion_disabled_until = 70 := by
  norm_num [headlessStep, initState, resultState, resultEffects, headlessTailState,
    headlessTailEffects, headlessDispatch, noDispatch, filterAllowed, play_gtts_text,
    allowed_labels, personLabel, catLabel, dogLabel, personDet, catDet, List.filter,
    cat_ne_person]

lemma headlessStep_animal_first_until (s : State) (i : FrameInput)
    (raws : List Detection) (d : Detection)
    (hmod : s.frame_count % s.frame_skip = 0)
    (hdet : i.detector = Except.ok raws)
    (hhead : (filterAllowed raws).head? = some d)
    (hne : d.label ≠ personLabel) (hl : d.label = catLabel ∨ d.label = dogLabel) :
    (resultState (headlessStep s i)).motion_disabled_until = s.motion_disabled_until := by
  rw [headlessStep_det s i raws hmod hdet]
  cases hfa : filterAllowed raws with
  | nil =>
    rw [hfa] at hhead
    simp at hhead
  | cons d' rest =>
    rw [hfa] at hhead
    simp only [List.head?_cons, Option.some.injEq] at hhead
    subst hhead
    rw [headlessDispatch_animal_head d' rest s.last_audio_time i.now hne hl]
    rfl

/-- C9 (amended): on a detector frame while the gate is already disabled,
a cached person detection resets `motion_disabled_until` to exactly
`now + 20` — a replacement of the window, not an accumulation — provided
the dispatch loop reaches the person entry: in the headless loop the
person must be the first person/cat/dog entry of the batch, and a batch
whose first such entry is a cat or dog leaves the window untouched; in
the GUI loop any cached person suffices. -/
theorem c9_window_reset (s : State) (i : FrameInput) (raws : List Detection)
    (hdis : s.motion_enabled = false)
    (hmod : s.frame_count % s.frame_skip = 0)
    (hdet : i.detector = Except.ok raws) :
    (∀ d, (filterAllowed raws).head? = some d → d.label = personLabel →
      (resultState (headlessStep s i)).motion_disabled_until = i.now + 20 ∧
      (resultState (headlessStep s i)).motion_enabled = false) ∧
    (∀ d ∈ raws, d.label = personLabel →
      (resultState (guiStep s i)).motion_disabled_until = i.now + 20 ∧
      (resultState (guiStep s i)).motion_enabled = false) ∧
    (∀ d, (filterAllowed raws).head? = some d →
      d.label = catLabel ∨ d.label = dogLabel →
      (resultState (headlessStep s i)).motion_disabled_until
        = s.motion_disabled_until) := by
  refine ⟨?_, ?_, ?_⟩
  · intro d hhead hl
    have hh := headlessStep_person_first s i raws d hmod hdet hhead hl
    exact ⟨hh.2.2.1, hh.2.1⟩
  · intro d hdmem hl
    have hg := guiStep_person s i raws d hmod hdet hdmem hl
    exact ⟨hg.2.2.1, hg.2.1⟩
  · intro d hhead hl
    have hne : d.label ≠ personLabel := by
      rcases hl with h | h <;> rw [h]
      · exact cat_ne_person
      · exact dog_ne_person
    exact headlessStep_animal_first_until s i raws d hmod hdet hhead hne hl

/-- C9 witness: gate disabled until 100; a person-first headless frame at
t = 90 resets the window to 110; a GUI frame with batch `[cat, person]`
(person NOT first) at t = 90 also resets to 110; the same batch on the
headless loop leaves the window at 100. -/
theorem c9_window_reset_witness :
    (resultState (headlessStep ⟨1, 3, 0, 0, false, 100, [], 0⟩
      ⟨90, Except.ok [personDet], false, 3⟩)).motion_disabled_until = 110 ∧
    (resultState (guiStep ⟨1, 3, 0, 0, false, 100, [], 0⟩
      ⟨90, Except.ok [catDet, personDet], false, 3⟩)).motion_disabled_until = 110 ∧
    (resultState (headlessStep ⟨1, 3, 0, 0, false, 100, [], 0⟩
      ⟨90, Except.ok [catDet, personDet], false, 3⟩)).motion_disabled_until = 100 := by
  have h1 := c9_window_reset ⟨1, 3, 0, 0, false, 100, [], 0⟩
    ⟨90, Except.ok [personDet], false, 3⟩ [personDet] rfl (by decide) rfl
  have h2 := c9_window_reset ⟨1, 3, 0, 0, false, 100, [], 0⟩
    ⟨90, Except.ok [catDet, personDet], false, 3⟩ [catDet, personDet] rfl
    (by decide) rfl
  refine ⟨?_, ?_, ?_⟩
  · have hx := (h1.1 personDet (by norm_num [filterAllowed, List.filter, personDet,
      allowed_labels, personLabel, catLabel, dogLabel]) rfl).1
    rw [hx]
    norm_num
  · have hx := (h2.2.1 personDet (by simp) rfl).1
    rw [hx]
    norm_num
  · have hx := h2.2.2 catDet (by norm_num [filterAllowed, List.filter, personDet,
      catDet, allowed_labels, personLabel, catLabel, dogLabel]) (Or.inl rfl)
    rw [hx]

/-- If the dispatch step already played audio this frame, the nested motion
alert of the headless tail is blocked by the shared cooldown (its
distance from the shared cell is 0 < 10), so at most one category plays. -/
lemma headlessTail_atMostOne (s : State) (i : FrameInput) (dets : List Detection)
    (dr : DispatchResult) (b : Bool)
    (h1 : ¬(dr.playedPerson = true ∧ dr.playedAnimal = true))
    (h2 : dr.playedPerson = true ∨ dr.playedAnimal = true →
      dr.last_audio_time = i.now) :
    atMostOneAudio (headlessTailEffects s i dets dr b) := by
  unfold atMostOneAudio
  rw [hte_playedPerson, hte_playedAnimal, hte_playedMotion]
  refine ⟨h1, ?_, ?_⟩
  · rintro ⟨hp, hm⟩
    simp only [Bool.and_eq_true] at hm
    have hplayed := hm.2
    rw [h2 (Or.inl hp)] at hplayed
    rw [play_self_blocked textMotionH 10 2.22 i.now (by norm_num)] at hplayed
    cases hplayed
  · rintro ⟨hp, hm⟩
    simp only [Bool.and_eq_true] at hm
    have hplayed := hm.2
    rw [h2 (Or.inr hp)] at hplayed
    rw [play_self_blocked textMotionH 10 2.22 i.now (by norm_num)] at hplayed
    cases hplayed

/-- Same for the GUI tail. -/
lemma guiTail_atMostOne (s : State) (i : FrameInput) (dets : List Detection)
    (dr : DispatchResult) (b : Bool)
    (h1 : ¬(dr.playedPerson = true ∧ dr.playedAnimal = true))
    (h2 : dr.playedPerson = true ∨ dr.playedAnimal = true →
      dr.last_audio_time = i.now) :
    atMostOneAudio (guiTailEffects s i dets dr b) := by
  unfold atMostOneAudio
  rw [gte_playedPerson, gte_playedAnimal, gte_playedMotion]
  refine ⟨h1, ?_, ?_⟩
  · rintro ⟨hp, hm⟩
    simp only [Bool.and_eq_true] at hm
    have hplayed := hm.2
    rw [h2 (Or.inl hp)] at hplayed
    rw [play_self_blocked textMotionG 10 1.61 i.now (by norm_num)] at hplayed
    cases hplayed
  · rintro ⟨hp, hm⟩
    simp only [Bool.and_eq_true] at hm
    have hplayed := hm.2
    rw [h2 (Or.inr hp)] at hplayed
    rw [play_self_blocked textMotionG 10 1.61 i.now (by norm_num)] at hplayed
    cases hplayed

/-- A detector frame whose filtered batch starts with a cat/dog entry
dispatches the animal alert and not the person alert (headless loop). -/
lemma headlessStep_animal_first (s : State) (i : FrameInput) (raws : List Detection)
    (d : Detection) (hmod : s.frame_count % s.frame_skip = 0)
    (hdet : i.detector = Except.ok raws)
    (hhead : (filterAllowed raws).head? = some d)
    (hne : d.label ≠ personLabel) (hl : d.label = catLabel ∨ d.label = dogLabel) :
    (resultEffects (headlessStep s i)).dispatchedAnimal = true ∧
    (resultEffects (headlessStep s i)).dispatchedPerson = false := by
  rw [headlessStep_det s i raws hmod hdet]
  cases hfa : filterAllowed raws with
  | nil =>
    rw [hfa] at hhead
    simp at hhead
  | cons d' rest =>
    rw [hfa] at hhead
    simp only [List.head?_cons, Option.some.injEq] at hhead
    subst hhead
    rw [headlessDispatch_animal_head d' rest s.last_audio_time i.now hne hl]
    exact ⟨rfl, rfl⟩

/-- C4 counterexample (headless loop, from `__init__`, N = 1): the batch
`[cat, person]` contains both a person and a cat entry, yet the dispatch
loop `break`s on the cat entry first: the animal alert is dispatched and
plays, and the person alert is not dispatched at all — priority follows
insertion order, not person-over-animal. -/
theorem c4_counterexample :
    (resultEffects (headlessStep (initState 1)
      ⟨50, Except.ok [catDet, personDet], false, 0⟩)).dispatchedAnimal = true ∧
    (resultEffects (headlessStep (initState 1)
      ⟨50, Except.ok [catDet, personDet], false, 0⟩)).playedAnimal = true ∧
    (resultEffects (headlessStep (initState 1)
      ⟨50, Except.ok [catDet, personDet], false, 0⟩)).dispatchedPerson = false := by
  norm_num [headlessStep, initState, resultState, resultEffects, headlessTailState,
    headlessTailEffects, headlessDispatch, noDispatch, filterAllowed, play_gtts_text,
    allowed_labels, personLabel, catLabel, dogLabel, personDet, catDet, List.filter,
    cat_ne_person]

/-- C4 (amended): at most one audio alert actually plays per frame in
either loop (any alert that plays moves the shared cooldown cell to
`now`, blocking the later motion alert of the same frame); the category
dispatched by the headless loop is decided by the FIRST allowed entry of
the batch — a leading person entry dispatches the person alert, a
leading cat/dog entry dispatches the animal alert and suppresses the
person alert even when a person is present later in the batch; the GUI
loop never dispatches animal alerts and dispatches the person alert
whenever a person entry is cached. -/
theorem c4_first_match_dispatch (s : State) (i : FrameInput) :
    (isFatal (headlessStep s i) = false →
      atMostOneAudio (resultEffects (headlessStep s i))) ∧
    (isFatal (guiStep s i) = false →
      atMostOneAudio (resultEffects (guiStep s i))) ∧
    (∀ raws d, s.frame_count % s.frame_skip = 0 → i.detector = Except.ok raws →
      (filterAllowed raws).head? = some d →
      ((d.label = personLabel →
        (resultEffects (headlessStep s i)).dispatchedPerson = true ∧
        (resultEffects (headlessStep s i)).dispatchedAnimal = false) ∧
       (d.label = catLabel ∨ d.label = dogLabel →
        (resultEffects (headlessStep s i)).dispatchedAnimal = true ∧
        (resultEffects (headlessStep s i)).dispatchedPerson = false))) ∧
    (resultEffects (guiStep s i)).dispatchedAnimal = false ∧
    (∀ raws, s.frame_count % s.frame_skip = 0 → i.detector = Except.ok raws →
      (∃ d ∈ filterAllowed raws, d.label = personLabel) →
      (resultEffects (guiStep s i)).dispatchedPerson = true) := by
  refine ⟨?_, ?_, ?_, ?_, ?_⟩
  · intro hfat
    by_cases hmod : s.frame_count % s.frame_skip = 0
    · cases hdet : i.detector with
      | error u =>
        rw [headlessStep_err s i u hmod hdet] at hfat ⊢
        cases hfat
      | ok raws =>
        rw [headlessStep_det s i raws hmod hdet]
        have ha := headlessDispatch_audio (filterAllowed raws) s.last_audio_time i.now
        exact headlessTail_atMostOne s i _ _ true ha.1 (fun hp => ha.2.1 hp)
    · rw [headlessStep_skip s i hmod]
      refine headlessTail_atMostOne s i _ _ false ?_ ?_
      · rintro ⟨hp, _⟩
        cases hp
      · rintro (hp | hp) <;> cases hp
  · intro hfat
    by_cases hmod : s.frame_count % s.frame_skip = 0
    · cases hdet : i.detector with
      | error u =>
        rw [guiStep_err s i u hmod hdet] at hfat ⊢
        cases hfat
      | ok raws =>
        rw [guiStep_det s i raws hmod hdet]
        have ha := guiDispatch_audio (filterAllowed raws) s.last_audio_time i.now
        have hna := guiDispatch_no_animal (filterAllowed raws) s.last_audio_time i.now
        refine guiTail_atMostOne s i _ _ true ?_ ?_
        · rintro ⟨_, hpa⟩
          rw [hna.2] at hpa
          cases hpa
        · rintro (hp | hp)
          · exact ha.1 hp
          · rw [hna.2] at hp
            cases hp
    · rw [guiStep_skip s i hmod]
      refine guiTail_atMostOne s i _ _ false ?_ ?_
      · rintro ⟨hp, _⟩
        cases hp
      · rintro (hp | hp) <;> cases hp
  · intro raws d hmod hdet hhead
    constructor
    · intro hl
      have h := headlessStep_person_first s i raws d hmod hdet hhead hl
      refine ⟨h.2.2.2.2, ?_⟩
      rw [headlessStep_det s i raws hmod hdet]
      cases hfa : filterAllowed raws with
      | nil =>
        rw [hfa] at hhead
        simp at hhead
      | cons d' rest =>
        rw [hfa] at hhead
        simp only [List.head?_cons, Option.some.injEq] at hhead
        subst hhead
        rw [headlessDispatch_person_head d' rest s.last_audio_time i.now hl]
        rfl
    · intro hl
      have hne : d.label ≠ personLabel := by
        rcases hl with h | h <;> rw [h]
        · exact cat_ne_person
        · exact dog_ne_person
      exact headlessStep_animal_first s i raws d hmod hdet hhead hne hl
  · by_cases hmod : s.frame_count % s.frame_skip = 0
    · cases hdet : i.detector with
      | error u =>
        rw [guiStep_err s i u hmod hdet]
        rfl
      | ok raws =>
        rw [guiStep_det s i raws hmod hdet]
        have hna := guiDispatch_no_animal (filterAllowed raws) s.last_audio_time i.now
        rw [resultEffects, gte_dispatchedAnimal, hna.1]
    · rw [guiStep_skip s i hmod]
      rfl
  · intro raws hmod hdet hp
    rw [guiStep_det s i raws hmod hdet]
    have h := guiDispatch_person_mem (filterAllowed raws) s.last_audio_time i.now hp
    rw [resultEffects, gte_dispatchedPerson, h.2]

/-- C4 witness. -/
theorem c4_first_match_dispatch_witness :
    atMostOneAudio (resultEffects (headlessStep (initState 1)
      ⟨50, Except.ok [], true, 0⟩)) ∧
    (resultEffects (headlessStep (initState 1)
      ⟨50, Except.ok [personDet], false, 0⟩)).dispatchedPerson = true ∧
    (resultEffects (guiStep (initState 1)
      ⟨50, Except.ok [personDet], false, 0⟩)).dispatchedPerson = true := by
  refine ⟨?_, ?_, ?_⟩
  · exact (c4_first_match_dispatch (initState 1) ⟨50, Except.ok [], true, 0⟩).1
      (by rw [headlessStep_det (initState 1) _ [] (by decide) rfl]; rfl)
  · exact (((c4_first_match_dispatch (initState 1)
      ⟨50, Except.ok [personDet], false, 0⟩).2.2.1 [personDet] personDet (by decide) rfl
      (by norm_num [filterAllowed, List.filter, personDet, allowed_labels, personLabel,
        catLabel, dogLabel])).1 rfl).1
  · exact (c4_first_match_dispatch (initState 1)
      ⟨50, Except.ok [personDet], false, 0⟩).2.2.2.2 [personDet] (by decide) rfl
      ⟨personDet, by norm_num [filterAllowed, List.filter, personDet, allowed_labels,
        personLabel, catLabel, dogLabel], rfl⟩

lemma gts_lastSavedMotion (s : State) (i : FrameInput) (dets : List Detection)
    (dr : DispatchResult) :
    (guiTailState s i dets dr).lastSavedMotion =
      (if ((if dr.disable then false else s.motion_enabled) && i.significantMotion)
       then i.now else s.lastSavedMotion) := rfl

/-- Motion branch of the headless tail: with the gate on and significant
motion, the save (and the nested motion alert dispatch) happens iff the
0.2 s motion-save throttle allows. -/
lemma headlessTail_motion (s : State) (i : FrameInput) (dets : List Detection)
    (dr : DispatchResult) (b : Bool)
    (hmc : (if dr.disable then false else s.motion_enabled) = true)
    (hsig : i.significantMotion = true) :
    ((0.2 : ℚ) ≤ i.now - s.lastSavedMotion →
      (headlessTailEffects s i dets dr b).savedMotionFrames = [(i.frameId, dets)] ∧
      (headlessTailState s i dets dr).lastSavedMotion = i.now ∧
      (headlessTailEffects s i dets dr b).dispatchedMotion = true) ∧
    (i.now - s.lastSavedMotion < 0.2 →
      (headlessTailEffects s i dets dr b).savedMotionFrames = [] ∧
      (headlessTailState s i dets dr).lastSavedMotion = s.lastSavedMotion ∧
      (headlessTailEffects s i dets dr b).dispatchedMotion = false) := by
  constructor
  · intro h
    have hd : decide ((0.2 : ℚ) ≤ i.now - s.lastSavedMotion) = true := decide_eq_true h
    rw [hte_savedMotion, hts_lastSavedMotion, hte_dispatchedMotion, hmc, hsig, hd]
    norm_num
  · intro h
    have hd : decide ((0.2 : ℚ) ≤ i.now - s.lastSavedMotion) = false :=
      decide_eq_false (not_le.mpr h)
    rw [hte_savedMotion, hts_lastSavedMotion, hte_dispatchedMotion, hmc, hsig, hd]
    norm_num

/-- Motion branch of the GUI tail: with the gate on and significant motion,
the raw frame is saved and the motion alert dispatched unconditionally —
there is no throttle check. -/
lemma guiTail_motion (s : State) (i : FrameInput) (dets : List Detection)
    (dr : DispatchResult) (b : Bool)
    (hmc : (if dr.disable then false else s.motion_enabled) = true)
    (hsig : i.significantMotion = true) :
    (guiTailEffects s i dets dr b).savedMotionFrames = [(i.frameId, [])] ∧
    (guiTailState s i dets dr).lastSavedMotion = i.now ∧
    (guiTailEffects s i dets dr b).dispatchedMotion = true := by
  rw [gte_savedMotion, gts_lastSavedMotion, gte_dispatchedMotion, hmc, hsig]
  norm_num

/-- C7 counterexample: (a) GUI loop, reachable after one motion save at
t = 50: on the next frame at t = 50.05 — only 0.05 s later, inside the
0.2 s minimum interval — the frame is saved anyway (no throttle check);
(b) headless loop: a motion save with a cached cat detection persists the
frame with its boxes already drawn, not the raw frame. -/
theorem c7_counterexample :
    (resultState (guiStep (initState 1) ⟨50, Except.ok [], true, 0⟩)).lastSavedMotion
      = 50 ∧
    (resultEffects (guiStep
        (resultState (guiStep (initState 1) ⟨50, Except.ok [], true, 0⟩))
        ⟨50.05, Except.ok [], true, 1⟩)).savedMotionFrames = [(1, [])] ∧
    ((50.05 : ℚ) - 50 < 0.2) ∧
    (resultEffects (headlessStep (initState 1)
        ⟨50, Except.ok [catDet], true, 0⟩)).savedMotionFrames = [(0, [catDet])] := by
  norm_num [headlessStep, guiStep, initState, resultState, resultEffects,
    headlessTailState, headlessTailEffects, guiTailState, guiTailEffects,
    headlessDispatch, guiDispatch, guiDrawSaveLoop, noDispatch, filterAllowed,
    play_gtts_text, allowed_labels, personLabel, catLabel, dogLabel, catDet,
    List.filter, cat_ne_person]

/-- C7 (amended): in the headless loop, on every non-fatal frame where
motion sensing runs and significant motion is found, the frame — carrying
whatever boxes the cached detections drew on it — is persisted iff the
0.2 s motion-save throttle allows it, the throttle then updates, and the
motion alert is dispatched via the shared audio throttle only in that
case; in the GUI loop the raw frame is persisted and the motion alert
dispatched on every such frame, the throttle timestamp being updated but
never consulted. -/
theorem c7_motion_save_behaviour (s : State) (i : FrameInput)
    (hfat : isFatal (headlessStep s i) = false)
    (gfat : isFatal (guiStep s i) = false) :
    ((resultEffects (headlessStep s i)).motionChecked = true →
      i.significantMotion = true →
      (((0.2 : ℚ) ≤ i.now - s.lastSavedMotion →
        (resultEffects (headlessStep s i)).savedMotionFrames =
          [(i.frameId, (resultState (headlessStep s i)).persistent_detections)] ∧
        (resultState (headlessStep s i)).lastSavedMotion = i.now ∧
        (resultEffects (headlessStep s i)).dispatchedMotion = true) ∧
       (i.now - s.lastSavedMotion < 0.2 →
        (resultEffects (headlessStep s i)).savedMotionFrames = [] ∧
        (resultState (headlessStep s i)).lastSavedMotion = s.lastSavedMotion ∧
        (resultEffects (headlessStep s i)).dispatchedMotion = false))) ∧
    ((resultEffects (guiStep s i)).motionChecked = true →
      i.significantMotion = true →
      (resultEffects (guiStep s i)).savedMotionFrames = [(i.frameId, [])] ∧
      (resultState (guiStep s i)).lastSavedMotion = i.now ∧
      (resultEffects (guiStep s i)).dispatchedMotion = true) := by
  constructor
  · intro hmc hsig
    by_cases hmod : s.frame_count % s.frame_skip = 0
    · cases hdet : i.detector with
      | error u =>
        rw [headlessStep_err s i u hmod hdet] at hfat
        cases hfat
      | ok raws =>
        rw [headlessStep_det s i raws hmod hdet] at hmc ⊢
        rw [resultEffects, hte_motionChecked] at hmc
        rw [resultState, resultEffects, hts_cache]
        exact headlessTail_motion s i _ _ true hmc hsig
    · rw [headlessStep_skip s i hmod] at hmc ⊢
      rw [resultEffects, hte_motionChecked] at hmc
      rw [resultState, resultEffects, hts_cache]
      exact headlessTail_motion s i _ _ false hmc hsig
  · intro hmc hsig
    by_cases hmod : s.frame_count % s.frame_skip = 0
    · cases hdet : i.detector with
      | error u =>
        rw [guiStep_err s i u hmod hdet] at gfat
        cases gfat
      | ok raws =>
        rw [guiStep_det s i raws hmod hdet] at hmc ⊢
        rw [resultEffects, gte_motionChecked] at hmc
        rw [resultState, resultEffects]
        exact guiTail_motion s i _ _ true hmc hsig
    · rw [guiStep_skip s i hmod] at hmc ⊢
      rw [resultEffects, gte_motionChecked] at hmc
      rw [resultState, resultEffects]
      exact guiTail_motion s i _ _ false hmc hsig

/-- C7 witness. -/
theorem c7_motion_save_behaviour_witness :
    (resultEffects (headlessStep (initState 1)
      ⟨50, Except.ok [], true, 0⟩)).savedMotionFrames = [(0, [])] ∧
    (resultState (headlessStep (initState 1)
      ⟨50, Except.ok [], true, 0⟩)).lastSavedMotion = 50 ∧
    (resultEffects (guiStep (initState 1)
      ⟨50, Except.ok [], true, 0⟩)).savedMotionFrames = [(0, [])] := by
  have h := c7_motion_save_behaviour (initState 1) ⟨50, Except.ok [], true, 0⟩
    (by rw [headlessStep_det (initState 1) _ [] (by decide) rfl]; rfl)
    (by rw [guiStep_det (initState 1) _ [] (by decide) rfl]; rfl)
  have h1 := h.1 (by rw [headlessStep_det (initState 1) _ [] (by decide) rfl]; rfl) rfl
  have h2 := h.2 (by rw [guiStep_det (initState 1) _ [] (by decide) rfl]; rfl) rfl
  have h3 := h1.1 (by norm_num [initState])
  have hc : (resultState (headlessStep (initState 1)
      ⟨50, Except.ok [], true, 0⟩)).persistent_detections = [] := by
    rw [headlessStep_det (initState 1) _ [] (by decide) rfl]
    rfl
  refine ⟨?_, ?_, h2.1⟩
  · rw [h3.1, hc]
  · exact h3.2.1

/-- C10 counterexample (headless loop, N = 2, from `__init__`): frame 0
caches `[cat, person]` at t = 50 (animal alert plays, shared audio cell
:= 50, gate stays enabled since the cat entry is hit first); frame 1 is a
skipped frame (1 % 2 ≠ 0) with a person entry still cached, and its
motion alert fires at t = 65 — moving the shared audio-throttle state
from 50 to 65 on a skipped frame, contrary to the claim that the
audio-throttle state is unchanged on every skipped frame. -/
theorem c10_counterexample :
    personDet ∈ (resultState (headlessStep (initState 2)
      ⟨50, Except.ok [catDet, personDet], false, 0⟩)).persistent_detections ∧
    (resultState (headlessStep (initState 2)
      ⟨50, Except.ok [catDet, personDet], false, 0⟩)).last_audio_time = 50 ∧
    (resultState (headlessStep
        (resultState (headlessStep (initState 2)
          ⟨50, Except.ok [catDet, personDet], false, 0⟩))
        ⟨65, Except.ok [], true, 1⟩)).last_audio_time = 65 := by
  norm_num [headlessStep, initState, resultState, resultEffects, headlessTailState,
    headlessTailEffects, headlessDispatch, noDispatch, filterAllowed, play_gtts_text,
    allowed_labels, personLabel, catLabel, dogLabel, personDet, catDet, List.filter,
    cat_ne_person]

/-- C10 (amended): on every skipped frame (`frame_count % N ≠ 0`) neither
loop can fail, the suppression window `motion_disabled_until` is never
extended, no person or animal alert is dispatched (so none plays), and
the shared audio-throttle state changes only when a motion alert actually
plays on that frame — a cached person entry on a skipped frame neither
extends the window nor triggers a person/animal alert. -/
theorem c10_skipped_frame_effects (s : State) (i : FrameInput)
    (h : ¬ s.frame_count % s.frame_skip = 0) :
    isFatal (headlessStep s i) = false ∧
    (resultState (headlessStep s i)).motion_disabled_until = s.motion_disabled_until ∧
    (resultEffects (headlessStep s i)).dispatchedPerson = false ∧
    (resultEffects (headlessStep s i)).dispatchedAnimal = false ∧
    (resultEffects (headlessStep s i)).playedPerson = false ∧
    (resultEffects (headlessStep s i)).playedAnimal = false ∧
    ((resultEffects (headlessStep s i)).playedMotion = false →
      (resultState (headlessStep s i)).last_audio_time = s.last_audio_time) ∧
    isFatal (guiStep s i) = false ∧
    (resultState (guiStep s i)).motion_disabled_until = s.motion_disabled_until ∧
    (resultEffects (guiStep s i)).dispatchedPerson = false ∧
    (resultEffects (guiStep s i)).dispatchedAnimal = false ∧
    (resultEffects (guiStep s i)).playedPerson = false ∧
    (resultEffects (guiStep s i)).playedAnimal = false ∧
    ((resultEffects (guiStep s i)).playedMotion = false →
      (resultState (guiStep s i)).last_audio_time = s.last_audio_time) := by
  rw [headlessStep_skip s i h, guiStep_skip s i h]
  refine ⟨rfl, rfl, rfl, rfl, rfl, rfl, ?_, rfl, rfl, rfl, rfl, rfl, rfl, ?_⟩
  · intro hpm
    rw [resultEffects, hte_playedMotion] at hpm
    rw [resultState, hts_audio]
    by_cases hm : ((if (noDispatch s.last_audio_time).disable then false
        else s.motion_enabled) && i.significantMotion &&
        decide ((0.2 : ℚ) ≤ i.now - s.lastSavedMotion)) = true
    · rw [hm] at hpm
      rw [if_pos hm]
      simp only [Bool.true_and] at hpm
      exact play_false_last _ _ _ _ _ hpm
    · rw [if_neg hm]
      rfl
  · intro hpm
    rw [resultEffects, gte_playedMotion] at hpm
    rw [resultState, gts_audio]
    by_cases hm : ((if (noDispatch s.last_audio_time).disable then false
        else s.motion_enabled) && i.significantMotion) = true
    · rw [hm] at hpm
      rw [if_pos hm]
      simp only [Bool.true_and] at hpm
      exact play_false_last _ _ _ _ _ hpm
    · rw [if_neg hm]
      rfl

/-- C10 witness: a skipped frame with a cached person, no motion — nothing
dispatched, window and audio state untouched, in both loops. -/
theorem c10_skipped_frame_effects_witness :
    (resultState (headlessStep ⟨5, 2, 0, 0, true, 40, [personDet], 7⟩
      ⟨50, Except.ok [], false, 0⟩)).motion_disabled_until = 40 ∧
    (resultEffects (headlessStep ⟨5, 2, 0, 0, true, 40, [personDet], 7⟩
      ⟨50, Except.ok [], false, 0⟩)).dispatchedPerson = false ∧
    (resultState (headlessStep ⟨5, 2, 0, 0, true, 40, [personDet], 7⟩
      ⟨50, Except.ok [], false, 0⟩)).last_audio_time = 7 ∧
    (resultState (guiStep ⟨5, 2, 0, 0, true, 40, [personDet], 7⟩
      ⟨50, Except.ok [], false, 0⟩)).last_audio_time = 7 := by
  have h := c10_skipped_frame_effects ⟨5, 2, 0, 0, true, 40, [personDet], 7⟩
    ⟨50, Except.ok [], false, 0⟩ (by decide)
  refine ⟨h.2.1, h.2.2.1, ?_, ?_⟩
  · refine h.2.2.2.2.2.2.1 ?_
    rw [headlessStep_skip _ _ (by decide), resultEffects, hte_playedMotion]
    rfl
  · refine h.2.2.2.2.2.2.2.2.2.2.2.2.2 ?_
    rw [guiStep_skip _ _ (by decide), resultEffects, gte_playedMotion]
    rfl
